import Mathlib

/-!
Shallow embedding of the neon_divide grid simulation and capture algorithm
(the grid-based GameCanvas component: createInitialGrid, isOnWall,
isAdjacentToVoid, floodFill, calculatePercentage, handlePlayerDeath,
advanceLevel and the gameLoop tick body).

Conventions of the embedding:
- The JS cell array `number[]` of length GRID_WIDTH * GRID_HEIGHT is embedded
  as a total map `Int -> Option Nat`; reading an index outside the allocated
  range yields `none` (JS `undefined`), and `grid[idx] === CELL_WALL` becomes
  `g idx = some CELL_WALL` (strict equality with `undefined` is false).
- All positions in the source stay integral: they start at integer values and
  are only ever changed by adding integer velocities, integer clamps and
  integer sidesteps, so `Math.floor` on them is the identity and positions are
  embedded as `Int` directly.
- `Math.random()` outcomes are embedded as an oracle parameter: each use of
  `Math.floor(Math.random() * k)` becomes `r % k` for an arbitrary natural
  number `r` drawn from the oracle, and each `Math.random() > 0.5` becomes an
  arbitrary oracle boolean.  Theorems quantify over the oracle.
- Render-only data (canvas drawing, explosion particles, the enemy `rotation`
  phase) and the input-device layer are outside the embedded core; the four
  pressed direction keys enter as an `Input` record.
-/

namespace NeonDivide

/-- Cell values of the grid, matching the source constants. -/
def CELL_EMPTY : Nat := 0

/-- Wall / captured cell value. -/
def CELL_WALL : Nat := 1

/-- Trail cell value. -/
def CELL_TRAIL : Nat := 2

/-- Grid width in cells. -/
def GRID_WIDTH : Int := 84

/-- Grid height in cells. -/
def GRID_HEIGHT : Int := 48

/-- Win condition threshold: the player needs to capture 75 percent. -/
def WIN_PERCENTAGE : Int := 75

/-- Player speed in grid cells per tick. -/
def PLAYER_SPEED : Int := 1

/-- Enemy speed in grid cells per (enemy-motion) tick. -/
def ENEMY_SPEED : Int := 1

/-- Column where the play area starts. -/
def PLAY_AREA_LEFT : Int := 13

/-- Row where the play area starts. -/
def PLAY_AREA_TOP : Int := 1

/-- Column where the play area ends (exclusive for interior tests). -/
def PLAY_AREA_RIGHT : Int := 83

/-- Row where the play area ends. -/
def PLAY_AREA_BOTTOM : Int := 47

/-- The grid: a JS `number[]` of length GRID_WIDTH * GRID_HEIGHT embedded as a
total map from flat index to optional cell value; `none` is the `undefined`
read from an index outside the allocated range. -/
def Grid : Type := Int → Option Nat

/-- Write of `grid[idx] = v` (JS property assignment; every write performed by
the simulation is at an in-range index). -/
def gridSet (g : Grid) (idx : Int) (v : Nat) : Grid :=
  fun j => if j = idx then some v else g j

/-- Raw read `grid[x + y * GRID_WIDTH]` as performed by the direct array
accesses in the game loop (bounce tests, next-cell test, trail test). -/
def rawRead (g : Grid) (x y : Int) : Option Nat :=
  g (x + y * GRID_WIDTH)

/-- The freshly allocated array `new Array(GRID_WIDTH * GRID_HEIGHT).fill(CELL_EMPTY)`. -/
def emptyGrid : Grid :=
  fun idx => if 0 ≤ idx ∧ idx < GRID_WIDTH * GRID_HEIGHT then some CELL_EMPTY else none

/-- The x range of the top and bottom border loops: x from PLAY_AREA_LEFT - 1
to PLAY_AREA_RIGHT inclusive. -/
def borderXs : List Int :=
  (List.range 72).map (fun i => PLAY_AREA_LEFT - 1 + (i : Int))

/-- The y range of the left and right border loops: y from 0 to
PLAY_AREA_BOTTOM inclusive. -/
def borderYs : List Int :=
  (List.range 48).map (fun i => (i : Int))

/-- createInitialGrid: all cells EMPTY, then the four border strips set to
WALL (top row 0, bottom row PLAY_AREA_BOTTOM, left column PLAY_AREA_LEFT - 1,
right column PLAY_AREA_RIGHT). -/
def createInitialGrid : Grid :=
  let g0 := emptyGrid
  let g1 := borderXs.foldl (fun g x => gridSet g (x + 0 * GRID_WIDTH) CELL_WALL) g0
  let g2 := borderXs.foldl (fun g x => gridSet g (x + PLAY_AREA_BOTTOM * GRID_WIDTH) CELL_WALL) g1
  let g3 := borderYs.foldl (fun g y => gridSet g ((PLAY_AREA_LEFT - 1) + y * GRID_WIDTH) CELL_WALL) g2
  borderYs.foldl (fun g y => gridSet g (PLAY_AREA_RIGHT + y * GRID_WIDTH) CELL_WALL) g3

/-- isOnWall: out-of-bounds coordinates resolve to WALL (true); in bounds the
cell is compared against CELL_WALL. -/
def isOnWall (x y : Int) (g : Grid) : Bool :=
  if x < 0 ∨ x ≥ GRID_WIDTH ∨ y < 0 ∨ y ≥ GRID_HEIGHT then true
  else decide (g (x + y * GRID_WIDTH) = some CELL_WALL)

/-- isAdjacentToVoid: true when one of the four axis neighbors, if inside the
grid bounds, is an EMPTY cell. -/
def isAdjacentToVoid (x y : Int) (g : Grid) : Bool :=
  let chk := fun (nx ny : Int) =>
    if 0 ≤ nx ∧ nx < GRID_WIDTH ∧ 0 ≤ ny ∧ ny < GRID_HEIGHT then
      decide (g (nx + ny * GRID_WIDTH) = some CELL_EMPTY)
    else false
  chk (x + 1) y || chk (x - 1) y || chk x (y + 1) || chk x (y - 1)

/-- Fuel bound for the flood-fill loop; the stack receives at most four pushes
per filled cell plus the seed, so any value above 4 * 84 * 48 + 1 iterations
is never exhausted. -/
def FILL_FUEL : Nat := 100000

/-- One enemy-proximity test of the fill: the floored enemy position is within
Chebyshev distance 1 of the visited cell (positions are integral, so flooring
is the identity). -/
def enemyNearCell (cx cy : Int) (e : Int × Int) : Bool :=
  (e.1 - cx).natAbs ≤ 1 && (e.2 - cy).natAbs ≤ 1

/-- The stack-based flood-fill loop.  The Lean list is the JS stack: `pop`
takes the head, a push is a cons, so the four neighbor pushes (left, right,
up, down in the source order) are popped in the same last-in first-out order
as in the source.  The `visited` list embeds the string-keyed `Set`. -/
def floodFillLoop (enemyPositions : List (Int × Int)) (fillValue : Nat) :
    Nat → List (Int × Int) → List (Int × Int) → Grid → Nat → Grid × Nat
  | 0, _, _, grid, count => (grid, count)
  | _ + 1, [], _, grid, count => (grid, count)
  | fuel + 1, (cx, cy) :: rest, visited, grid, count =>
    if (cx, cy) ∈ visited then
      floodFillLoop enemyPositions fillValue fuel rest visited grid count
    else
      let visited := (cx, cy) :: visited
      if cx < PLAY_AREA_LEFT ∨ cx ≥ PLAY_AREA_RIGHT ∨
          cy < PLAY_AREA_TOP ∨ cy ≥ PLAY_AREA_BOTTOM then
        floodFillLoop enemyPositions fillValue fuel rest visited grid count
      else
        let idx := cx + cy * GRID_WIDTH
        if grid idx ≠ some CELL_EMPTY then
          floodFillLoop enemyPositions fillValue fuel rest visited grid count
        else
          let grid := gridSet grid idx fillValue
          let count := count + enemyPositions.countP (enemyNearCell cx cy)
          let stack := rest
          let stack := if grid (cx - 1 + cy * GRID_WIDTH) = some CELL_EMPTY then
            (cx - 1, cy) :: stack else stack
          let stack := if grid (cx + 1 + cy * GRID_WIDTH) = some CELL_EMPTY then
            (cx + 1, cy) :: stack else stack
          let stack := if grid (cx + (cy - 1) * GRID_WIDTH) = some CELL_EMPTY then
            (cx, cy - 1) :: stack else stack
          let stack := if grid (cx + (cy + 1) * GRID_WIDTH) = some CELL_EMPTY then
            (cx, cy + 1) :: stack else stack
          floodFillLoop enemyPositions fillValue fuel stack visited grid count

/-- floodFill: fills the EMPTY region of the play area reachable from the seed
with `fillValue` (on the private copy it is handed) and returns the mutated
grid together with the enemy-occupancy count accumulated per visited cell. -/
def floodFill (startX startY : Int) (fillValue : Nat) (grid : Grid)
    (enemyPositions : List (Int × Int)) : Grid × Nat :=
  floodFillLoop enemyPositions fillValue FILL_FUEL [(startX, startY)] [] grid 0

/-- One row of the counting loop inside calculatePercentage: the WALL cells
of play-area row PLAY_AREA_TOP + j (x from PLAY_AREA_LEFT to PLAY_AREA_RIGHT
exclusive). -/
def capturedRow (g : Grid) (j : Nat) : Nat :=
  (List.range 70).countP fun i =>
    decide (g ((PLAY_AREA_LEFT + (i : Int)) + (PLAY_AREA_TOP + (j : Int)) * GRID_WIDTH) = some CELL_WALL)

/-- The WALL count of the double counting loop inside calculatePercentage
(y from PLAY_AREA_TOP to PLAY_AREA_BOTTOM exclusive), written as the sum of
the per-row counts of the inner loop. -/
def capturedCount (g : Grid) : Nat :=
  ((List.range 46).map (capturedRow g)).sum

/-- Total play-area cell count (PLAY_AREA_RIGHT - PLAY_AREA_LEFT) *
(PLAY_AREA_BOTTOM - PLAY_AREA_TOP). -/
def totalArea : Int :=
  (PLAY_AREA_RIGHT - PLAY_AREA_LEFT) * (PLAY_AREA_BOTTOM - PLAY_AREA_TOP)

/-- calculatePercentage: Math.floor((capturedCount / totalArea) * 100), read
with exact rational arithmetic in place of JS double division (the two agree
on every possible count 0..3220, checked exhaustively).  The exact rational
(count / total) * 100 is written as the single quotient (count * 100) / total
so that the computation stays kernel-reducible; the claim theorem for the
percentage proves it equal to the floor of the cast expression
(count : Rat) / total * 100. -/
def calculatePercentage (g : Grid) : Int :=
  (Rat.divInt ((capturedCount g : Int) * 100) totalArea).floor

/-- Player mode: on safe ground or drawing in the void. -/
inductive PlayerState where
  | onWall
  | onStage
deriving DecidableEq

/-- Game status values. -/
inductive GameStatus where
  | playing
  | dead
  | levelComplete
  | paused
  | levelAnnounce
deriving DecidableEq

/-- An enemy: integral position and axis velocities.  The render-only
`rotation` phase is not part of the embedded core. -/
structure Enemy where
  x : Int
  y : Int
  vx : Int
  vy : Int
deriving DecidableEq

/-- The full simulation state: the grid, the player refs, the enemy roster,
the tick counter and the GameState record fields. -/
structure SimState where
  grid : Grid
  playerPos : Int × Int
  playerSpeed : Int × Int
  playerState : PlayerState
  enemies : List Enemy
  tickCount : Nat
  status : GameStatus
  score : Int
  percentage : Int
  level : Int
  lives : Int

/-- The pressed direction keys consumed by one tick. -/
structure Input where
  left : Bool
  right : Bool
  up : Bool
  down : Bool
deriving DecidableEq

/-- One drawing of the random source for an enemy respawn: two naturals for
the two position rolls and two booleans for the two velocity-sign rolls. -/
structure RandSpawn where
  rx : Nat
  ry : Nat
  sx : Bool
  sy : Bool

/-- The oracle of Math.random outcomes: a respawn drawing per enemy index. -/
def Rand : Type := Nat → RandSpawn

/-- One enemy respawn of handlePlayerDeath: position re-randomized inside the
spawn band, velocity signs re-rolled (floor(random * k) is embedded as r % k). -/
def respawnEnemy (r : RandSpawn) (_e : Enemy) : Enemy :=
  { x := PLAY_AREA_LEFT + 10 + ((r.rx % 50 : Nat) : Int)
    y := PLAY_AREA_TOP + 5 + ((r.ry % 36 : Nat) : Int)
    vx := if r.sx then ENEMY_SPEED else -ENEMY_SPEED
    vy := if r.sy then ENEMY_SPEED else -ENEMY_SPEED }

/-- The enemies.forEach respawn loop of handlePlayerDeath. -/
def respawnAll (orc : Rand) : Nat → List Enemy → List Enemy
  | _, [] => []
  | i, e :: rest => respawnEnemy (orc i) e :: respawnAll orc (i + 1) rest

/-- handlePlayerDeath: if the decremented lives would go negative the status
becomes dead (nothing else changes); otherwise grid, player and enemies are
reset for the next life, the percentage drops to 0 and the status stays
playing, with score and level kept. -/
def handlePlayerDeath (orc : Rand) (s : SimState) : SimState :=
  let newLives := s.lives - 1
  if newLives < 0 then
    { s with status := GameStatus.dead }
  else
    { s with
      grid := createInitialGrid
      playerPos := (48, PLAY_AREA_BOTTOM)
      playerSpeed := (0, 0)
      playerState := PlayerState.onWall
      enemies := respawnAll orc 0 s.enemies
      lives := newLives
      percentage := 0
      status := GameStatus.playing }

/-- The synchronous part of advanceLevel: announce the next level and award
the completion bonus.  The delayed (setTimeout) level start that later resets
the stage and appends an enemy runs outside the tick and is not part of the
tick function. -/
def advanceLevel (s : SimState) : SimState :=
  { s with
    status := GameStatus.levelAnnounce
    level := s.level + 1
    score := s.score + 1000 }

/-- Keyboard processing at the head of the tick: each pressed direction sets
the axis velocity, but only while the player is onWall; later checks override
earlier ones as in the source order left, right, up, down. -/
def applyInput (inp : Input) (st : PlayerState) (sp : Int × Int) : Int × Int :=
  let sp := if inp.left ∧ st = PlayerState.onWall then (-PLAYER_SPEED, 0) else sp
  let sp := if inp.right ∧ st = PlayerState.onWall then (PLAYER_SPEED, 0) else sp
  let sp := if inp.up ∧ st = PlayerState.onWall then (0, -PLAYER_SPEED) else sp
  if inp.down ∧ st = PlayerState.onWall then (0, PLAYER_SPEED) else sp

/-- Motion of one enemy after its trail check passed: bounce each axis whose
next cell reads WALL, move by the velocity, then clamp each axis into the play
band, forcing the velocity sign outward when clamped (the two clamp tests of
an axis are sequential, the second seeing the first clamp). -/
def stepEnemy (g : Grid) (e : Enemy) : Enemy :=
  let ex := e.x
  let ey := e.y
  let vx := if rawRead g (ex + e.vx) ey = some CELL_WALL then -e.vx else e.vx
  let vy := if rawRead g ex (ey + e.vy) = some CELL_WALL then -e.vy else e.vy
  let x := e.x + vx
  let y := e.y + vy
  let xv := if x < PLAY_AREA_LEFT then (PLAY_AREA_LEFT, |vx|) else (x, vx)
  let xv := if xv.1 ≥ PLAY_AREA_RIGHT - 1 then (PLAY_AREA_RIGHT - 2, -|xv.2|) else xv
  let yv := if y < PLAY_AREA_TOP then (PLAY_AREA_TOP, |vy|) else (y, vy)
  let yv := if yv.1 ≥ PLAY_AREA_BOTTOM - 1 then (PLAY_AREA_BOTTOM - 2, -|yv.2|) else yv
  { x := xv.1, y := yv.1, vx := xv.2, vy := yv.2 }

/-- The enemy-motion loop: enemies are processed in order; when the floored
position of an enemy reads CELL_TRAIL the death event fires at once and the
loop is abandoned, with that enemy and all later ones unmoved.  Returns the
resulting roster and whether death was signaled. -/
def enemiesPhase (g : Grid) : List Enemy → List Enemy × Bool
  | [] => ([], false)
  | e :: rest =>
    if rawRead g e.x e.y = some CELL_TRAIL then (e :: rest, true)
    else
      let e2 := stepEnemy g e
      let r := enemiesPhase g rest
      (e2 :: r.1, r.2)

/-- Position clamp after the player move: x into
[PLAY_AREA_LEFT - 1, PLAY_AREA_RIGHT], y into [0, PLAY_AREA_BOTTOM]. -/
def clampPos (p : Int × Int) : Int × Int :=
  (max (PLAY_AREA_LEFT - 1) (min PLAY_AREA_RIGHT p.1),
   max 0 (min PLAY_AREA_BOTTOM p.2))

/-- The 3x3 wall scan around the player used by the state-transition step (the
center cell included, out-of-bounds neighbors skipped). -/
def wallDetected (cx cy : Int) (g : Grid) : Bool :=
  (List.range 3).any fun dy =>
    (List.range 3).any fun dx =>
      let checkX := cx + (dx : Int) - 1
      let checkY := cy + (dy : Int) - 1
      if 0 ≤ checkX ∧ checkX < GRID_WIDTH ∧ 0 ≤ checkY ∧ checkY < GRID_HEIGHT then
        decide (g (checkX + checkY * GRID_WIDTH) = some CELL_WALL)
      else false

/-- The commit double loop over y then x visits each flat index
0 .. GRID_WIDTH * GRID_HEIGHT - 1 exactly once, reads it before writing it,
and writes no other index, so the committed array is this pointwise function
of the pre-loop grid: a TRAIL cell of the live grid becomes WALL; a cell the
private copy labels with the winning value becomes WALL; a cell labeled with
the losing value becomes EMPTY; every other cell is untouched. -/
def commitGrid (g copy : Grid) (fillThis doNotFill : Nat) : Grid := fun idx =>
  if 0 ≤ idx ∧ idx < GRID_WIDTH * GRID_HEIGHT then
    if g idx = some CELL_TRAIL then some CELL_WALL
    else if copy idx = some fillThis then some CELL_WALL
    else if copy idx = some doNotFill then some CELL_EMPTY
    else g idx
  else g idx

/-- The areaCaptured counter of the commit loop: the number of visited cells
that take the winning-label branch (not TRAIL on the live grid, labeled with
the winning value on the copy). -/
def areaCapturedCount (g copy : Grid) (fillThis : Nat) : Nat :=
  (List.range 4032).countP fun i =>
    decide (¬ g (i : Int) = some CELL_TRAIL) && decide (copy (i : Int) = some fillThis)

/-- The enemy-destruction pass after the commit: enemies whose floored
position now reads WALL are destroyed (counted), the rest survive in order. -/
def splitCaptured (g : Grid) : List Enemy → List Enemy × Nat
  | [] => ([], 0)
  | e :: rest =>
    let r := splitCaptured g rest
    if rawRead g e.x e.y = some CELL_WALL then (r.1, r.2 + 1)
    else (e :: r.1, r.2)

/-- The stuck-recovery sidestep: with the landing cell on WALL, probe the two
cells perpendicular to the travel direction for an EMPTY cell and relocate one
cell into the first that is EMPTY (reads use the pre-sidestep cell coordinates
as in the source, which captured currentPx and currentPy before moving). -/
def sidestep (g : Grid) (sp : Int × Int) (cx cy : Int) : Int × Int :=
  if rawRead g cx cy = some CELL_WALL then
    let ny :=
      if sp.1 ≠ 0 then
        if rawRead g cx (cy - 1) = some CELL_EMPTY then cy - 1
        else if rawRead g cx (cy + 1) = some CELL_EMPTY then cy + 1
        else cy
      else cy
    let nx :=
      if sp.2 ≠ 0 then
        if rawRead g (cx - 1) cy = some CELL_EMPTY then cx - 1
        else if rawRead g (cx + 1) cy = some CELL_EMPTY then cx + 1
        else cx
      else cx
    (nx, ny)
  else (cx, cy)

/-- Seed selection, perpendicular to the travel direction: moving horizontally
the seeds are the cells directly above and below the landing cell, otherwise
directly to its left and right. -/
def captureSeeds (sp : Int × Int) (cx cy : Int) : (Int × Int) × (Int × Int) :=
  if sp.1 ≠ 0 then ((cx, cy - 1), (cx, cy + 1))
  else ((cx - 1, cy), (cx + 1, cy))

/-- The two independent flood fills over the private grid copy: side A (the
first seed) is labeled 5, side B (the second seed) is labeled 6 on the copy
left by the first fill.  Returns the doubly-labeled copy and the two
enemy-occupancy counts. -/
def captureFills (g : Grid) (sp : Int × Int) (cx cy : Int)
    (enemyPositions : List (Int × Int)) : Grid × Nat × Nat :=
  let seeds := captureSeeds sp cx cy
  let r1 := floodFill seeds.1.1 seeds.1.2 5 g enemyPositions
  let r2 := floodFill seeds.2.1 seeds.2.2 6 r1.1 enemyPositions
  (r2.1, r1.2, r2.2)

/-- The capture sequence run when the player touches safe ground with trail
behind: dual flood fill on a copy, side choice by enemy-occupancy comparison
(fill1 >= fill2 selects value 6, side B, for capture), commit, enemy
destruction, percentage and score update, then either the level-complete
branch (which returns at once) or the sidestep and the unconditional
transition back to onWall. -/
def captureStep (s : SimState) : SimState :=
  let cx := s.playerPos.1
  let cy := s.playerPos.2
  let enemyPositions := s.enemies.map (fun e => (e.x, e.y))
  let fills := captureFills s.grid s.playerSpeed cx cy enemyPositions
  let gridCopy := fills.1
  let fill1 := fills.2.1
  let fill2 := fills.2.2
  let choice : Nat × Nat := if fill1 ≥ fill2 then (6, 5) else (5, 6)
  let g := gridSet (commitGrid s.grid gridCopy choice.1 choice.2)
    (cx + cy * GRID_WIDTH) CELL_WALL
  let areaCaptured := areaCapturedCount s.grid gridCopy choice.1
  let split := splitCaptured g s.enemies
  let destroyedCount := split.2
  let enemies := if destroyedCount > 0 then split.1 else s.enemies
  let newPercentage := calculatePercentage g
  let s2 := { s with
    grid := g
    enemies := enemies
    percentage := newPercentage
    score := s.score + areaCaptured * 10 + destroyedCount * 500 }
  if newPercentage ≥ WIN_PERCENTAGE then advanceLevel s2
  else
    { s2 with
      playerPos := sidestep g s.playerSpeed cx cy
      playerState := PlayerState.onWall }

/-- The state-transition step after the move (wall scan, trail laying, capture
on wall contact, or the onWall-to-onStage transition when leaving the wall). -/
def transitions (s : SimState) : SimState :=
  let cx := s.playerPos.1
  let cy := s.playerPos.2
  let wd := wallDetected cx cy s.grid
  if s.playerState = PlayerState.onStage then
    let g := gridSet s.grid (cx + cy * GRID_WIDTH) CELL_TRAIL
    let prevX := cx - s.playerSpeed.1
    let prevY := cy - s.playerSpeed.2
    let g :=
      if 0 ≤ prevX ∧ prevX < GRID_WIDTH ∧ 0 ≤ prevY ∧ prevY < GRID_HEIGHT then
        gridSet g (prevX + prevY * GRID_WIDTH) CELL_TRAIL
      else g
    let s := { s with grid := g }
    if wd then captureStep s else s
  else
    if ¬ wd ∧ (s.playerSpeed.1 ≠ 0 ∨ s.playerSpeed.2 ≠ 0) then
      let prevX := cx - s.playerSpeed.1
      let prevY := cy - s.playerSpeed.2
      let g :=
        if 0 ≤ prevX ∧ prevX < GRID_WIDTH ∧ 0 ≤ prevY ∧ prevY < GRID_HEIGHT then
          gridSet s.grid (prevX + prevY * GRID_WIDTH) CELL_TRAIL
        else s.grid
      { s with grid := g, playerState := PlayerState.onStage }
    else s

/-- The player part of the tick: wall-hit detection and speed gating, the
self-intersection death check, the move with clamp, then the transitions.
Returns the new state and whether death was signaled. -/
def playerUpdate (orc : Rand) (s : SimState) : SimState × Bool :=
  let px := s.playerPos.1
  let py := s.playerPos.2
  let nextPx := px + s.playerSpeed.1
  let nextPy := py + s.playerSpeed.2
  let nextCell := rawRead s.grid nextPx nextPy
  let speed :=
    if s.playerState = PlayerState.onWall then
      if nextPx < PLAY_AREA_LEFT - 1 ∨ nextPx > PLAY_AREA_RIGHT ∨
          nextPy < 0 ∨ nextPy > PLAY_AREA_BOTTOM then (0, 0)
      else if nextCell = some CELL_WALL ∧ ¬ isAdjacentToVoid nextPx nextPy s.grid then
        (0, 0)
      else s.playerSpeed
    else
      if nextCell = some CELL_WALL then (0, 0) else s.playerSpeed
  if s.playerState = PlayerState.onStage ∧ nextCell = some CELL_TRAIL then
    (handlePlayerDeath orc { s with playerSpeed := speed }, true)
  else
    let pos := clampPos (px + speed.1, py + speed.2)
    (transitions { s with playerSpeed := speed, playerPos := pos }, false)

/-- One invocation of the gameLoop body (rendering excluded), returning the
new state together with the death flag of this tick.  A non-playing status
returns the state untouched; otherwise the tick counter advances, input is
processed, enemies move on even ticks (possibly signaling death and aborting
the tick), then the player update runs. -/
def gameLoopTickE (inp : Input) (orc : Rand) (s : SimState) : SimState × Bool :=
  if s.status ≠ GameStatus.playing then (s, false)
  else
    let s := { s with tickCount := s.tickCount + 1 }
    let s := { s with playerSpeed := applyInput inp s.playerState s.playerSpeed }
    if s.tickCount % 2 = 0 then
      let eres := enemiesPhase s.grid s.enemies
      if eres.2 then (handlePlayerDeath orc { s with enemies := eres.1 }, true)
      else playerUpdate orc { s with enemies := eres.1 }
    else playerUpdate orc s

/-- The per-tick state transformer of the simulation. -/
def gameLoopTick (inp : Input) (orc : Rand) (s : SimState) : SimState :=
  (gameLoopTickE inp orc s).1

/-! ### Percentage lemmas -/

lemma ratFloor_eq_floor (q : ℚ) : q.floor = ⌊q⌋ := rfl

lemma capturedRow_le (g : Grid) (j : Nat) : capturedRow g j ≤ 70 := by
  have h := List.countP_le_length
    (l := List.range 70)
    (p := fun i =>
      decide (g ((PLAY_AREA_LEFT + (i : Int)) + (PLAY_AREA_TOP + (j : Int)) * GRID_WIDTH) = some CELL_WALL))
  simpa [capturedRow] using h

lemma capturedCount_le (g : Grid) : capturedCount g ≤ 3220 := by
  have h : ((List.range 46).map (capturedRow g)).sum ≤
      ((List.range 46).map (fun _ => 70)).sum := by
    apply List.sum_le_sum
    intro i _
    exact capturedRow_le g i
  have h2 : ((List.range 46).map (fun _ => (70 : Nat))).sum = 3220 := by decide
  calc capturedCount g ≤ ((List.range 46).map (fun _ => 70)).sum := h
    _ = 3220 := h2

/-- The divInt form of the percentage equals the floor of the cast expression
(count / total) * 100 over the rationals. -/
lemma calculatePercentage_eq_floor (g : Grid) :
    calculatePercentage g =
      Int.floor (((capturedCount g : ℚ) / (totalArea : ℚ)) * 100) := by
  unfold calculatePercentage
  rw [ratFloor_eq_floor, Rat.divInt_eq_div]
  congr 1
  push_cast [totalArea, PLAY_AREA_RIGHT, PLAY_AREA_LEFT, PLAY_AREA_BOTTOM, PLAY_AREA_TOP]
  ring

/-- The percentage as exact integer division. -/
lemma calculatePercentage_eq_div (g : Grid) :
    calculatePercentage g = (100 * (capturedCount g : Int)) / 3220 := by
  unfold calculatePercentage
  rw [ratFloor_eq_floor, Rat.divInt_eq_div]
  have h := Rat.floor_intCast_div_natCast ((capturedCount g : Int) * 100) 3220
  have e : (totalArea : ℚ) = ((3220 : ℕ) : ℚ) := by
    norm_num [totalArea, PLAY_AREA_RIGHT, PLAY_AREA_LEFT, PLAY_AREA_BOTTOM, PLAY_AREA_TOP]
  rw [e, h]
  omega

/-! ### Grid-values bookkeeping -/

/-- Number of cells of grid row y holding a value other than EMPTY, WALL or
TRAIL. -/
def gridRowViolations (g : Grid) (y : Nat) : Nat :=
  (List.range 84).countP (fun (x : Nat) =>
    !(g ((x : Int) + (y : Int) * 84) == some CELL_EMPTY ||
      g ((x : Int) + (y : Int) * 84) == some CELL_WALL ||
      g ((x : Int) + (y : Int) * 84) == some CELL_TRAIL))

/-- The in-range cells of a grid hold only the three cell values EMPTY, WALL,
TRAIL (the live grid never stores a fill label), stated as a decidable
check: no row contains a violating cell. -/
def GridValuesOk (g : Grid) : Prop :=
  (((List.range 48).map (gridRowViolations g)).sum == 0) = true

instance (g : Grid) : Decidable (GridValuesOk g) := by
  unfold GridValuesOk
  infer_instance

/-! ### gridSet pointwise lemmas -/

lemma gridSet_same (g : Grid) (i : Int) (v : Nat) : gridSet g i v i = some v := by
  simp [gridSet]

lemma gridSet_other (g : Grid) (i j : Int) (v : Nat) (h : j ≠ i) :
    gridSet g i v j = g j := by
  simp [gridSet, h]

/-! ### Flood-fill label lemmas -/

/-- Any cell of the grid left by the flood-fill loop either kept its previous
value or was overwritten with the fill label, and in the latter case the cell
was EMPTY before and lies at an in-range play-area index. -/
lemma floodFillLoop_label (eps : List (Int × Int)) (v : Nat) :
    ∀ (fuel : Nat) (stack visited : List (Int × Int)) (g : Grid) (count : Nat) (idx : Int),
      (floodFillLoop eps v fuel stack visited g count).1 idx = g idx ∨
      ((floodFillLoop eps v fuel stack visited g count).1 idx = some v ∧
        g idx = some CELL_EMPTY ∧ 0 ≤ idx ∧ idx < 4032) := by
  intro fuel
  induction fuel with
  | zero => intro stack visited g count idx; left; rfl
  | succ n ih =>
    intro stack visited g count idx
    match stack with
    | [] => left; rfl
    | (cx, cy) :: rest =>
      rw [floodFillLoop]
      by_cases hvis : (cx, cy) ∈ visited
      · rw [if_pos hvis]; exact ih rest visited g count idx
      · rw [if_neg hvis]
        by_cases hb : cx < PLAY_AREA_LEFT ∨ cx ≥ PLAY_AREA_RIGHT ∨
            cy < PLAY_AREA_TOP ∨ cy ≥ PLAY_AREA_BOTTOM
        · rw [if_pos hb]; exact ih rest ((cx, cy) :: visited) g count idx
        · rw [if_neg hb]
          by_cases he : g (cx + cy * GRID_WIDTH) ≠ some CELL_EMPTY
          · rw [if_pos he]; exact ih rest ((cx, cy) :: visited) g count idx
          · rw [if_neg he]
            push_neg at he hb
            have hidx : (0 : Int) ≤ cx + cy * GRID_WIDTH ∧ cx + cy * GRID_WIDTH < 4032 := by
              obtain ⟨h1, h2, h3, h4⟩ := hb
              simp only [PLAY_AREA_LEFT, PLAY_AREA_RIGHT, PLAY_AREA_TOP,
                PLAY_AREA_BOTTOM] at h1 h2 h3 h4
              simp only [GRID_WIDTH]
              omega
            set g2 := gridSet g (cx + cy * GRID_WIDTH) v with hg2
            rcases ih _ ((cx, cy) :: visited) g2 (count + eps.countP (enemyNearCell cx cy)) idx with
              hkeep | ⟨hlab, hemp, hrange⟩
            · by_cases heq : idx = cx + cy * GRID_WIDTH
              · right
                subst heq
                rw [hg2, gridSet_same] at hkeep
                exact ⟨hkeep, he, hidx.1, hidx.2⟩
              · left
                rw [hg2, gridSet_other _ _ _ _ heq] at hkeep
                exact hkeep
            · by_cases heq : idx = cx + cy * GRID_WIDTH
              · right
                subst heq
                exact ⟨hlab, he, hidx.1, hidx.2⟩
              · right
                rw [hg2, gridSet_other _ _ _ _ heq] at hemp
                exact ⟨hlab, hemp, hrange⟩

/-- The label lemma carried to floodFill itself. -/
lemma floodFill_label (sx sy : Int) (v : Nat) (g : Grid) (eps : List (Int × Int)) (idx : Int) :
    (floodFill sx sy v g eps).1 idx = g idx ∨
    ((floodFill sx sy v g eps).1 idx = some v ∧
      g idx = some CELL_EMPTY ∧ 0 ≤ idx ∧ idx < 4032) :=
  floodFillLoop_label eps v FILL_FUEL [(sx, sy)] [] g 0 idx

/-- A seed whose cell is not EMPTY (or which lies outside the play area)
labels nothing: the fill returns the grid unchanged with count 0. -/
lemma floodFill_seed_blocked (sx sy : Int) (v : Nat) (g : Grid) (eps : List (Int × Int))
    (h : ¬ g (sx + sy * GRID_WIDTH) = some CELL_EMPTY) :
    floodFill sx sy v g eps = (g, 0) := by
  unfold floodFill FILL_FUEL
  rw [floodFillLoop]
  simp only [List.not_mem_nil, if_neg, if_false]
  by_cases hb : sx < PLAY_AREA_LEFT ∨ sx ≥ PLAY_AREA_RIGHT ∨
      sy < PLAY_AREA_TOP ∨ sy ≥ PLAY_AREA_BOTTOM
  · rw [if_pos hb, floodFillLoop]
  · rw [if_neg hb, if_pos h, floodFillLoop]

/-! ### Commit lemmas -/

lemma commitGrid_trail (g copy : Grid) (ft dnf : Nat) (idx : Int)
    (hin : 0 ≤ idx ∧ idx < 4032) (ht : g idx = some CELL_TRAIL) :
    commitGrid g copy ft dnf idx = some CELL_WALL := by
  unfold commitGrid
  rw [if_pos (by simpa [GRID_WIDTH, GRID_HEIGHT] using hin), if_pos ht]

lemma commitGrid_win (g copy : Grid) (ft dnf : Nat) (idx : Int)
    (hin : 0 ≤ idx ∧ idx < 4032) (hnt : ¬ g idx = some CELL_TRAIL)
    (hc : copy idx = some ft) :
    commitGrid g copy ft dnf idx = some CELL_WALL := by
  unfold commitGrid
  rw [if_pos (by simpa [GRID_WIDTH, GRID_HEIGHT] using hin), if_neg hnt, if_pos hc]

lemma commitGrid_lose (g copy : Grid) (ft dnf : Nat) (idx : Int)
    (hin : 0 ≤ idx ∧ idx < 4032) (hnt : ¬ g idx = some CELL_TRAIL)
    (hne : ¬ copy idx = some ft) (hc : copy idx = some dnf) :
    commitGrid g copy ft dnf idx = some CELL_EMPTY := by
  unfold commitGrid
  rw [if_pos (by simpa [GRID_WIDTH, GRID_HEIGHT] using hin), if_neg hnt, if_neg hne, if_pos hc]

lemma commitGrid_keep (g copy : Grid) (ft dnf : Nat) (idx : Int)
    (hnt : ¬ g idx = some CELL_TRAIL)
    (hne : ¬ copy idx = some ft) (hnd : ¬ copy idx = some dnf) :
    commitGrid g copy ft dnf idx = g idx := by
  unfold commitGrid
  by_cases hin : 0 ≤ idx ∧ idx < GRID_WIDTH * GRID_HEIGHT
  · rw [if_pos hin, if_neg hnt, if_neg hne, if_neg hnd]
  · rw [if_neg hin]

/-! ### captureStep projection lemmas -/

/-- The grid left by the capture step, in both the level-complete and the
normal branch: the committed grid with the landing cell forced to WALL. -/
lemma captureStep_grid (s : SimState) :
    (captureStep s).grid =
      (let fills := captureFills s.grid s.playerSpeed s.playerPos.1 s.playerPos.2
        (s.enemies.map fun e => (e.x, e.y))
       let choice : Nat × Nat := if fills.2.1 ≥ fills.2.2 then (6, 5) else (5, 6)
       gridSet (commitGrid s.grid fills.1 choice.1 choice.2)
         (s.playerPos.1 + s.playerPos.2 * GRID_WIDTH) CELL_WALL) := by
  unfold captureStep advanceLevel
  dsimp only
  split <;> split <;> rfl

/-- The enemy roster left by the capture step, in both branches. -/
lemma captureStep_enemies (s : SimState) :
    (captureStep s).enemies =
      (let fills := captureFills s.grid s.playerSpeed s.playerPos.1 s.playerPos.2
        (s.enemies.map fun e => (e.x, e.y))
       let choice : Nat × Nat := if fills.2.1 ≥ fills.2.2 then (6, 5) else (5, 6)
       let g := gridSet (commitGrid s.grid fills.1 choice.1 choice.2)
         (s.playerPos.1 + s.playerPos.2 * GRID_WIDTH) CELL_WALL
       let split := splitCaptured g s.enemies
       if split.2 > 0 then split.1 else s.enemies) := by
  unfold captureStep advanceLevel
  dsimp only
  split <;> split <;> rfl

/-- Membership in the survivor list of the enemy-destruction pass. -/
lemma splitCaptured_mem (g : Grid) (e : Enemy) :
    ∀ l : List Enemy, e ∈ l → ¬ rawRead g e.x e.y = some CELL_WALL →
      e ∈ (splitCaptured g l).1 := by
  intro l
  induction l with
  | nil => intro h; exact absurd h (List.not_mem_nil e)
  | cons a rest ih =>
    intro hmem hnw
    rcases List.mem_cons.mp hmem with rfl | htail
    · unfold splitCaptured
      rw [if_neg hnw]
      exact List.mem_cons_self _ _
    · unfold splitCaptured
      by_cases ha : rawRead g a.x a.y = some CELL_WALL
      · rw [if_pos ha]; exact ih htail hnw
      · rw [if_neg ha]; exact List.mem_cons_of_mem a (ih htail hnw)

/-! ### Label origin lemmas -/

/-- Pointwise consequence of a zero violation count over an index range. -/
lemma countP_range_pointwise (p : Nat → Bool) :
    ∀ n : Nat, (List.range n).countP p = 0 → ∀ i : Nat, i < n → p i = false := by
  intro n
  induction n with
  | zero => intro _ i hi; omega
  | succ m ih =>
    intro h i hi
    rw [List.range_succ, List.countP_append] at h
    have h1 : (List.range m).countP p = 0 := by omega
    have h2 : List.countP p [m] = 0 := by omega
    by_cases hc : i < m
    · exact ih h1 i hc
    · have : i = m := by omega
      subst this
      simp only [List.countP_cons, List.countP_nil] at h2
      by_cases hp : p i = true
      · rw [hp] at h2; simp at h2
      · exact Bool.not_eq_true _ ▸ hp

lemma gridValues_at {g : Grid} (hv : GridValuesOk g) (idx : Int)
    (h0 : 0 ≤ idx) (h4 : idx < 4032) :
    g idx = some CELL_EMPTY ∨ g idx = some CELL_WALL ∨ g idx = some CELL_TRAIL := by
  have hy : (idx / 84).toNat < 48 := by omega
  have hx84 : (idx % 84).toNat < 84 := by omega
  have hcast : (((idx % 84).toNat : Int) + ((idx / 84).toNat : Int) * 84) = idx := by
    rw [Int.toNat_of_nonneg (by omega), Int.toNat_of_nonneg (by omega)]
    omega
  unfold GridValuesOk at hv
  rw [beq_iff_eq] at hv
  have hrowmem : gridRowViolations g (idx / 84).toNat ∈
      (List.range 48).map (gridRowViolations g) :=
    List.mem_map_of_mem _ (List.mem_range.mpr hy)
  have hrow : gridRowViolations g (idx / 84).toNat = 0 :=
    (List.sum_eq_zero_iff.mp hv) _ hrowmem
  unfold gridRowViolations at hrow
  have hx := countP_range_pointwise _ 84 hrow (idx % 84).toNat hx84
  rw [Bool.not_eq_false'] at hx
  simp only [Bool.or_eq_true, beq_iff_eq] at hx
  rw [hcast] at hx
  rcases hx with (h | h) | h
  · exact Or.inl h
  · exact Or.inr (Or.inl h)
  · exact Or.inr (Or.inr h)

/-- A cell labeled 6 by the dual fill was EMPTY on the live grid. -/
lemma captureFills_six_empty {g : Grid} (sp : Int × Int) (cx cy : Int)
    (eps : List (Int × Int)) (hv : GridValuesOk g) (idx : Int)
    (h0 : 0 ≤ idx) (h4 : idx < 4032)
    (h6 : (captureFills g sp cx cy eps).1 idx = some 6) :
    g idx = some CELL_EMPTY := by
  unfold captureFills at h6
  dsimp only at h6
  set seeds := captureSeeds sp cx cy with hseeds
  rcases floodFill_label seeds.2.1 seeds.2.2 6 (floodFill seeds.1.1 seeds.1.2 5 g eps).1 eps idx with
    hsame | ⟨_, hemp, _⟩
  · rw [hsame] at h6
    rcases floodFill_label seeds.1.1 seeds.1.2 5 g eps idx with hsame1 | ⟨hlab5, _, _⟩
    · rw [hsame1] at h6
      rcases gridValues_at hv idx h0 h4 with h | h | h <;>
        simp [h, CELL_EMPTY, CELL_WALL, CELL_TRAIL] at h6
    · rw [hlab5] at h6
      simp at h6
  · rcases floodFill_label seeds.1.1 seeds.1.2 5 g eps idx with hsame1 | ⟨hlab5, _, _⟩
    · rw [← hsame1]
      exact hemp
    · rw [hlab5] at hemp
      simp [CELL_EMPTY] at hemp

/-- A cell labeled 5 by the dual fill was EMPTY on the live grid. -/
lemma captureFills_five_empty {g : Grid} (sp : Int × Int) (cx cy : Int)
    (eps : List (Int × Int)) (hv : GridValuesOk g) (idx : Int)
    (h0 : 0 ≤ idx) (h4 : idx < 4032)
    (h5 : (captureFills g sp cx cy eps).1 idx = some 5) :
    g idx = some CELL_EMPTY := by
  unfold captureFills at h5
  dsimp only at h5
  set seeds := captureSeeds sp cx cy with hseeds
  rcases floodFill_label seeds.2.1 seeds.2.2 6 (floodFill seeds.1.1 seeds.1.2 5 g eps).1 eps idx with
    hsame | ⟨hlab6, _, _⟩
  · rw [hsame] at h5
    rcases floodFill_label seeds.1.1 seeds.1.2 5 g eps idx with hsame1 | ⟨_, hempg, _⟩
    · rw [hsame1] at h5
      rcases gridValues_at hv idx h0 h4 with h | h | h <;>
        simp [h, CELL_EMPTY, CELL_WALL, CELL_TRAIL] at h5
    · exact hempg
  · rw [hlab6] at h5
    simp at h5

/-! ### The capture commit rule (shared) -/

/-- The committed outcome of a capture as a function of the two enemy-occupancy
counts: the side whose count is greater or equal is released to EMPTY, the
other side is filled to WALL, and enemies standing on released cells survive. -/
lemma capture_commit_rule (s : SimState)
    (hv : GridValuesOk s.grid)
    (hland : s.grid (s.playerPos.1 + s.playerPos.2 * GRID_WIDTH) = some CELL_TRAIL) :
    (let fills := captureFills s.grid s.playerSpeed s.playerPos.1 s.playerPos.2
        (s.enemies.map fun e => (e.x, e.y))
     (fills.2.1 ≥ fills.2.2 →
        (∀ idx : Int, 0 ≤ idx → idx < 4032 → fills.1 idx = some 6 →
          (captureStep s).grid idx = some CELL_WALL) ∧
        (∀ idx : Int, 0 ≤ idx → idx < 4032 → fills.1 idx = some 5 →
          (captureStep s).grid idx = some CELL_EMPTY) ∧
        (∀ e ∈ s.enemies, 0 ≤ e.x + e.y * GRID_WIDTH → e.x + e.y * GRID_WIDTH < 4032 →
          fills.1 (e.x + e.y * GRID_WIDTH) = some 5 → e ∈ (captureStep s).enemies)) ∧
     (¬ fills.2.1 ≥ fills.2.2 →
        (∀ idx : Int, 0 ≤ idx → idx < 4032 → fills.1 idx = some 5 →
          (captureStep s).grid idx = some CELL_WALL) ∧
        (∀ idx : Int, 0 ≤ idx → idx < 4032 → fills.1 idx = some 6 →
          (captureStep s).grid idx = some CELL_EMPTY) ∧
        (∀ e ∈ s.enemies, 0 ≤ e.x + e.y * GRID_WIDTH → e.x + e.y * GRID_WIDTH < 4032 →
          fills.1 (e.x + e.y * GRID_WIDTH) = some 6 → e ∈ (captureStep s).enemies))) := by
  dsimp only
  set eps := s.enemies.map (fun e => (e.x, e.y)) with heps
  set fills := captureFills s.grid s.playerSpeed s.playerPos.1 s.playerPos.2 eps with hfills
  set landing := s.playerPos.1 + s.playerPos.2 * GRID_WIDTH with hlanding
  have hgrid := captureStep_grid s
  rw [← heps, ← hfills, ← hlanding] at hgrid
  have hene := captureStep_enemies s
  rw [← heps, ← hfills, ← hlanding] at hene
  dsimp only at hgrid hene
  have hsix : ∀ idx : Int, 0 ≤ idx → idx < 4032 → fills.1 idx = some 6 →
      s.grid idx = some CELL_EMPTY := by
    intro idx h0 h4 h6
    exact captureFills_six_empty s.playerSpeed s.playerPos.1 s.playerPos.2 eps hv idx h0 h4
      (by rw [← hfills]; exact h6)
  have hfive : ∀ idx : Int, 0 ≤ idx → idx < 4032 → fills.1 idx = some 5 →
      s.grid idx = some CELL_EMPTY := by
    intro idx h0 h4 h5
    exact captureFills_five_empty s.playerSpeed s.playerPos.1 s.playerPos.2 eps hv idx h0 h4
      (by rw [← hfills]; exact h5)
  constructor
  · intro hge
    simp only [if_pos hge] at hgrid hene
    have hwall : ∀ idx : Int, 0 ≤ idx → idx < 4032 → fills.1 idx = some 6 →
        (captureStep s).grid idx = some CELL_WALL := by
      intro idx h0 h4 h6
      rw [hgrid]
      by_cases hL : idx = landing
      · rw [hL, gridSet_same]
      · rw [gridSet_other _ _ _ _ hL]
        apply commitGrid_win _ _ _ _ _ ⟨h0, h4⟩ _ h6
        rw [hsix idx h0 h4 h6]
        simp [CELL_EMPTY, CELL_TRAIL]
    have hrel : ∀ idx : Int, 0 ≤ idx → idx < 4032 → fills.1 idx = some 5 →
        (captureStep s).grid idx = some CELL_EMPTY := by
      intro idx h0 h4 h5
      have hemp := hfive idx h0 h4 h5
      have hL : idx ≠ landing := by
        intro h
        rw [h, hland] at hemp
        simp [CELL_EMPTY, CELL_TRAIL] at hemp
      rw [hgrid, gridSet_other _ _ _ _ hL]
      apply commitGrid_lose _ _ _ _ _ ⟨h0, h4⟩
      · rw [hemp]; simp [CELL_EMPTY, CELL_TRAIL]
      · rw [h5]; simp
      · exact h5
    refine ⟨hwall, hrel, ?_⟩
    intro e he h0 h4 h5
    have hcell := hrel _ h0 h4 h5
    rw [hgrid] at hcell
    rw [hene]
    have hnw : ¬ rawRead
        (gridSet (commitGrid s.grid fills.1 6 5) landing CELL_WALL) e.x e.y = some CELL_WALL := by
      unfold rawRead
      rw [hcell]
      simp [CELL_EMPTY, CELL_WALL]
    split
    · exact splitCaptured_mem _ e s.enemies he hnw
    · exact he
  · intro hge
    simp only [if_neg hge] at hgrid hene
    have hwall : ∀ idx : Int, 0 ≤ idx → idx < 4032 → fills.1 idx = some 5 →
        (captureStep s).grid idx = some CELL_WALL := by
      intro idx h0 h4 h5
      rw [hgrid]
      by_cases hL : idx = landing
      · rw [hL, gridSet_same]
      · rw [gridSet_other _ _ _ _ hL]
        apply commitGrid_win _ _ _ _ _ ⟨h0, h4⟩ _ h5
        rw [hfive idx h0 h4 h5]
        simp [CELL_EMPTY, CELL_TRAIL]
    have hrel : ∀ idx : Int, 0 ≤ idx → idx < 4032 → fills.1 idx = some 6 →
        (captureStep s).grid idx = some CELL_EMPTY := by
      intro idx h0 h4 h6
      have hemp := hsix idx h0 h4 h6
      have hL : idx ≠ landing := by
        intro h
        rw [h, hland] at hemp
        simp [CELL_EMPTY, CELL_TRAIL] at hemp
      rw [hgrid, gridSet_other _ _ _ _ hL]
      apply commitGrid_lose _ _ _ _ _ ⟨h0, h4⟩
      · rw [hemp]; simp [CELL_EMPTY, CELL_TRAIL]
      · rw [h6]; simp
      · exact h6
    refine ⟨hwall, hrel, ?_⟩
    intro e he h0 h4 h6
    have hcell := hrel _ h0 h4 h6
    rw [hgrid] at hcell
    rw [hene]
    have hnw : ¬ rawRead
        (gridSet (commitGrid s.grid fills.1 5 6) landing CELL_WALL) e.x e.y = some CELL_WALL := by
      unfold rawRead
      rw [hcell]
      simp [CELL_EMPTY, CELL_WALL]
    split
    · exact splitCaptured_mem _ e s.enemies he hnw
    · exact he

/-! ### Claim C1 (amended): the capture side rule -/

/-- C1 (amended): at every closure, the capture resolution fills into WALL the
side whose flood fill reports enemy occupancy STRICTLY SMALLER than the other
(side B also on ties), and forces the side whose occupancy count is greater
or equal to EMPTY; an enemy whose floored cell lies in the released side
survives the commit.  In particular, with one enemy registered in one side and
none in the other, the side containing the enemy is the RELEASED one and the
enemy is not destroyed. -/
theorem c1_capture_side_rule (s : SimState)
    (hv : GridValuesOk s.grid)
    (hland : s.grid (s.playerPos.1 + s.playerPos.2 * GRID_WIDTH) = some CELL_TRAIL) :
    (let fills := captureFills s.grid s.playerSpeed s.playerPos.1 s.playerPos.2
        (s.enemies.map fun e => (e.x, e.y))
     (fills.2.1 ≥ fills.2.2 →
        (∀ idx : Int, 0 ≤ idx → idx < 4032 → fills.1 idx = some 6 →
          (captureStep s).grid idx = some CELL_WALL) ∧
        (∀ idx : Int, 0 ≤ idx → idx < 4032 → fills.1 idx = some 5 →
          (captureStep s).grid idx = some CELL_EMPTY) ∧
        (∀ e ∈ s.enemies, 0 ≤ e.x + e.y * GRID_WIDTH → e.x + e.y * GRID_WIDTH < 4032 →
          fills.1 (e.x + e.y * GRID_WIDTH) = some 5 → e ∈ (captureStep s).enemies)) ∧
     (fills.2.1 < fills.2.2 →
        (∀ idx : Int, 0 ≤ idx → idx < 4032 → fills.1 idx = some 5 →
          (captureStep s).grid idx = some CELL_WALL) ∧
        (∀ idx : Int, 0 ≤ idx → idx < 4032 → fills.1 idx = some 6 →
          (captureStep s).grid idx = some CELL_EMPTY) ∧
        (∀ e ∈ s.enemies, 0 ≤ e.x + e.y * GRID_WIDTH → e.x + e.y * GRID_WIDTH < 4032 →
          fills.1 (e.x + e.y * GRID_WIDTH) = some 6 → e ∈ (captureStep s).enemies))) := by
  have h := capture_commit_rule s hv hland
  dsimp only at h ⊢
  exact ⟨h.1, fun hlt => h.2 (by omega)⟩

/-! ### Claim C2 (amended): tie-break -/

/-- C2 (amended): the seeds are placed perpendicular to the travel direction
with side A grown from the first seed (above the landing cell when moving
horizontally, to its left when moving vertically), but on equal enemy
occupancy (including both zero) the captured side is side B — the second
seed, below respectively to the right — while side A is released; the
outcome is a pure function of the grid/seed/enemy snapshot, hence identical
on every run with the same snapshot. -/
theorem c2_tie_captures_side_b (s : SimState)
    (hv : GridValuesOk s.grid)
    (hland : s.grid (s.playerPos.1 + s.playerPos.2 * GRID_WIDTH) = some CELL_TRAIL) :
    (∀ sp : Int × Int, ∀ cx cy : Int,
      (sp.1 ≠ 0 → captureSeeds sp cx cy = ((cx, cy - 1), (cx, cy + 1))) ∧
      (sp.1 = 0 → captureSeeds sp cx cy = ((cx - 1, cy), (cx + 1, cy)))) ∧
    ((captureFills s.grid s.playerSpeed s.playerPos.1 s.playerPos.2
        (s.enemies.map fun e => (e.x, e.y))).2.1 =
      (captureFills s.grid s.playerSpeed s.playerPos.1 s.playerPos.2
        (s.enemies.map fun e => (e.x, e.y))).2.2 →
        (∀ idx : Int, 0 ≤ idx → idx < 4032 →
          (captureFills s.grid s.playerSpeed s.playerPos.1 s.playerPos.2
            (s.enemies.map fun e => (e.x, e.y))).1 idx = some 6 →
          (captureStep s).grid idx = some CELL_WALL) ∧
        (∀ idx : Int, 0 ≤ idx → idx < 4032 →
          (captureFills s.grid s.playerSpeed s.playerPos.1 s.playerPos.2
            (s.enemies.map fun e => (e.x, e.y))).1 idx = some 5 →
          (captureStep s).grid idx = some CELL_EMPTY)) := by
  constructor
  · intro sp cx cy
    constructor
    · intro h
      unfold captureSeeds
      rw [if_pos h]
    · intro h
      unfold captureSeeds
      rw [if_neg (by simp [h])]
  · intro htie
    have h := capture_commit_rule s hv hland
    dsimp only at h
    have hge := h.1 (le_of_eq htie.symm)
    exact ⟨hge.1, hge.2.1⟩

/-! ### Claim C3 (amended): degenerate closure -/

/-- C3 (amended): a degenerate closure whose two seed cells are both
non-EMPTY labels nothing, so no cell is captured from the fills and no cell
is released to EMPTY; the grid is NOT left completely unchanged though: every
TRAIL cell is sealed to WALL and the landing cell is forced to WALL, while
every other cell keeps its value. -/
theorem c3_degenerate_closure (s : SimState)
    (hv : GridValuesOk s.grid)
    (hA : ¬ s.grid ((captureSeeds s.playerSpeed s.playerPos.1 s.playerPos.2).1.1 +
        (captureSeeds s.playerSpeed s.playerPos.1 s.playerPos.2).1.2 * GRID_WIDTH) = some CELL_EMPTY)
    (hB : ¬ s.grid ((captureSeeds s.playerSpeed s.playerPos.1 s.playerPos.2).2.1 +
        (captureSeeds s.playerSpeed s.playerPos.1 s.playerPos.2).2.2 * GRID_WIDTH) = some CELL_EMPTY) :
    ∀ idx : Int, 0 ≤ idx → idx < 4032 →
      (captureStep s).grid idx =
        (if idx = s.playerPos.1 + s.playerPos.2 * GRID_WIDTH then some CELL_WALL
         else if s.grid idx = some CELL_TRAIL then some CELL_WALL
         else s.grid idx) := by
  intro idx h0 h4
  have hgrid := captureStep_grid s
  dsimp only at hgrid
  have hfills : captureFills s.grid s.playerSpeed s.playerPos.1 s.playerPos.2
      (s.enemies.map fun e => (e.x, e.y)) = (s.grid, 0, 0) := by
    unfold captureFills
    dsimp only
    rw [floodFill_seed_blocked _ _ _ _ _ hA]
    dsimp only
    rw [floodFill_seed_blocked _ _ _ _ _ hB]
  rw [hfills] at hgrid
  dsimp only at hgrid
  rw [if_pos (le_refl (0 : Nat) : (0 : Nat) ≥ 0)] at hgrid
  dsimp only at hgrid
  rw [hgrid]
  by_cases hL : idx = s.playerPos.1 + s.playerPos.2 * GRID_WIDTH
  · rw [if_pos hL, hL, gridSet_same]
  · rw [if_neg hL, gridSet_other _ _ _ _ hL]
    by_cases ht : s.grid idx = some CELL_TRAIL
    · rw [if_pos ht]
      exact commitGrid_trail _ _ _ _ _ ⟨h0, h4⟩ ht
    · rw [if_neg ht]
      apply commitGrid_keep _ _ _ _ _ ht
      · rcases gridValues_at hv idx h0 h4 with h | h | h <;>
          simp [h, CELL_EMPTY, CELL_WALL, CELL_TRAIL]
      · rcases gridValues_at hv idx h0 h4 with h | h | h <;>
          simp [h, CELL_EMPTY, CELL_WALL, CELL_TRAIL]

/-! ### Concrete scenario states -/

/-- Flat index of the cell (x, y). -/
def idxOf (x y : Int) : Int := x + y * 84

/-- The border-wall cells laid by createInitialGrid, as a coordinate test. -/
def borderWallAt (x y : Int) : Bool :=
  (y = 0 ∧ 12 ≤ x ∧ x ≤ 83) ∨ (y = 47 ∧ 12 ≤ x ∧ x ≤ 83) ∨
  (x = 12 ∧ 0 ≤ y ∧ y ≤ 47) ∨ (x = 83 ∧ 0 ≤ y ∧ y ≤ 47)

/-- Extra walls of the box scenario: a 3-wide, 5-tall pocket in the top-left
play corner, closed by a wall column at x = 16 and a wall row at y = 6. -/
def boxWallAt (x y : Int) : Bool :=
  (x = 16 ∧ 1 ≤ y ∧ y ≤ 6) ∨ (y = 6 ∧ 13 ≤ x ∧ x ≤ 15)

/-- Extra walls of the corridor scenario: a one-cell-high corridor at y = 4
walled above, below and at its right end. -/
def corridorWallAt (x y : Int) : Bool :=
  (y = 3 ∧ 13 ≤ x ∧ x ≤ 16) ∨ (y = 5 ∧ 13 ≤ x ∧ x ≤ 16) ∨ (x = 16 ∧ y = 4)

/-- Box-scenario grid before the closing tick: trail started at (13, 4), the
player one cell further at (14, 4) and about to land next to the x = 16 wall. -/
def gridBox : Grid := fun idx =>
  if 0 ≤ idx ∧ idx < 4032 then
    let x := idx % 84
    let y := idx / 84
    some (if borderWallAt x y ∨ boxWallAt x y then CELL_WALL
          else if y = 4 ∧ x = 13 then CELL_TRAIL else CELL_EMPTY)
  else none

/-- Box-scenario grid as the capture step sees it, after the tick has moved
the player to the landing cell (15, 4) and laid the last two trail cells:
the trail spans the full row y = 4 of the pocket. -/
def gridBoxPost : Grid := fun idx =>
  if 0 ≤ idx ∧ idx < 4032 then
    let x := idx % 84
    let y := idx / 84
    some (if borderWallAt x y ∨ boxWallAt x y then CELL_WALL
          else if y = 4 ∧ 13 ≤ x ∧ x ≤ 15 then CELL_TRAIL else CELL_EMPTY)
  else none

/-- Corridor-scenario grid before the closing tick. -/
def gridCorridor : Grid := fun idx =>
  if 0 ≤ idx ∧ idx < 4032 then
    let x := idx % 84
    let y := idx / 84
    some (if borderWallAt x y ∨ corridorWallAt x y then CELL_WALL
          else if y = 4 ∧ x = 13 then CELL_TRAIL else CELL_EMPTY)
  else none

/-- Corridor-scenario grid as the capture step sees it after the trail laying
of the closing tick. -/
def gridCorridorPost : Grid := fun idx =>
  if 0 ≤ idx ∧ idx < 4032 then
    let x := idx % 84
    let y := idx / 84
    some (if borderWallAt x y ∨ corridorWallAt x y then CELL_WALL
          else if y = 4 ∧ 13 ≤ x ∧ x ≤ 15 then CELL_TRAIL else CELL_EMPTY)
  else none

/-- Near-complete grid: the whole play area is already WALL except the
3-by-5 pocket of the box scenario (without its extra walls; the pocket is
enclosed by captured ground), with the same started trail. -/
def gridWin : Grid := fun idx =>
  if 0 ≤ idx ∧ idx < 4032 then
    let x := idx % 84
    let y := idx / 84
    some (if x ≤ 11 then CELL_EMPTY
          else if 13 ≤ x ∧ x ≤ 15 ∧ 1 ≤ y ∧ y ≤ 5 then
            (if y = 4 ∧ x = 13 then CELL_TRAIL else CELL_EMPTY)
          else CELL_WALL)
  else none

/-- No pressed keys. -/
def noInput : Input := ⟨false, false, false, false⟩

/-- A fixed random oracle. -/
def orc0 : Rand := fun _ => ⟨0, 0, true, true⟩

/-- A mid-draw state about to close the cut: player onStage one cell short of
the wall, moving right along the trail row. -/
def mkDrawState (g : Grid) (es : List Enemy) : SimState :=
  { grid := g, playerPos := (14, 4), playerSpeed := (1, 0),
    playerState := PlayerState.onStage, enemies := es,
    tickCount := 0, status := GameStatus.playing, score := 0,
    percentage := 0, level := 1, lives := 3 }

/-- The same state as the capture step receives it (player moved to the
landing cell, trail sealed on the grid). -/
def mkLandState (g : Grid) (es : List Enemy) : SimState :=
  { grid := g, playerPos := (15, 4), playerSpeed := (1, 0),
    playerState := PlayerState.onStage, enemies := es,
    tickCount := 1, status := GameStatus.playing, score := 0,
    percentage := 0, level := 1, lives := 3 }

/-- Box scenario with a single enemy inside side B (the smaller, lower side). -/
def sC1 : SimState := mkDrawState gridBox [⟨14, 5, 1, 1⟩]

/-- The corresponding landing state. -/
def sC1w : SimState := mkLandState gridBoxPost [⟨14, 5, 1, 1⟩]

/-- Box scenario with no enemies at all (tie). -/
def sC2 : SimState := mkDrawState gridBox []

/-- The corresponding landing state. -/
def sC2w : SimState := mkLandState gridBoxPost []

/-- Corridor scenario (degenerate closure: both seed cells are WALL). -/
def sC3 : SimState := mkDrawState gridCorridor []

/-- The corresponding landing state. -/
def sC3w : SimState := mkLandState gridCorridorPost []

/-- Win scenario: closing the pocket pushes the percentage over the
threshold. -/
def sC9 : SimState := mkDrawState gridWin []

/-- Box scenario for the occupancy-count semantics: one enemy centered in
side A (nine pair counts), two distinct enemies in the corners of side B
(four pair counts). -/
def sC10 : SimState := mkDrawState gridBox [⟨14, 2, 1, 1⟩, ⟨13, 5, 1, 1⟩, ⟨15, 5, -1, -1⟩]

/-- Results of the closing ticks. -/
def resC1 : SimState := gameLoopTick noInput orc0 sC1

/-- Tick result of the tie scenario. -/
def resC2 : SimState := gameLoopTick noInput orc0 sC2

/-- Tick result of the corridor scenario. -/
def resC3 : SimState := gameLoopTick noInput orc0 sC3

/-- Tick result of the win scenario. -/
def resC9 : SimState := gameLoopTick noInput orc0 sC9

/-- Tick result of the occupancy scenario. -/
def resC10 : SimState := gameLoopTick noInput orc0 sC10

/-! ### Claim C4: wall-count and percentage monotonicity -/

/-- Pointwise wall preservation: every WALL cell of the first grid is a WALL
cell of the second. -/
def WallLe (g g2 : Grid) : Prop :=
  ∀ idx : Int, g idx = some CELL_WALL → g2 idx = some CELL_WALL

/-- The border strips laid by createInitialGrid read WALL on the grid. -/
def BorderWall (g : Grid) : Prop :=
  ∀ y : Nat, y < 48 → ∀ x : Nat, x < 84 →
    borderWallAt (x : Int) (y : Int) = true →
      g ((x : Int) + (y : Int) * 84) = some CELL_WALL

/-- The stored player velocity is an axis-aligned unit step or zero. -/
def speedOk (sp : Int × Int) : Prop :=
  sp = (0, 0) ∨ sp = (1, 0) ∨ sp = (-1, 0) ∨ sp = (0, 1) ∨ sp = (0, -1)

/-- The player position lies inside the clamp box of the game loop. -/
def posIn (p : Int × Int) : Prop :=
  12 ≤ p.1 ∧ p.1 ≤ 83 ∧ 0 ≤ p.2 ∧ p.2 ≤ 47

/-- The tick invariant behind the monotonicity claim: the border strips are
WALL, the stored velocity is an axis step, and while the game is running a
drawing player stands inside the clamp box on a non-WALL cell. -/
def Inv (s : SimState) : Prop :=
  BorderWall s.grid ∧ speedOk s.playerSpeed ∧
  (s.status = GameStatus.playing → s.playerState = PlayerState.onStage →
    posIn s.playerPos ∧
      ¬ s.grid (s.playerPos.1 + s.playerPos.2 * GRID_WIDTH) = some CELL_WALL)

instance (g : Grid) : Decidable (BorderWall g) := by
  unfold BorderWall
  infer_instance

instance (s : SimState) : Decidable (Inv s) := by
  unfold Inv BorderWall speedOk posIn
  infer_instance

/-- The state at component mount: fresh grid, player at the bottom-middle
wall cell, one enemy drawn from the random oracle, three lives. -/
def initialState (r : RandSpawn) : SimState :=
  { grid := createInitialGrid
    playerPos := (48, PLAY_AREA_BOTTOM)
    playerSpeed := (0, 0)
    playerState := PlayerState.onWall
    enemies := [{ x := 40 + ((r.rx % 20 : Nat) : Int), y := 15 + ((r.ry % 15 : Nat) : Int),
                  vx := if r.sx then ENEMY_SPEED else -ENEMY_SPEED,
                  vy := if r.sy then ENEMY_SPEED else -ENEMY_SPEED }]
    tickCount := 0
    status := GameStatus.playing
    score := 0
    percentage := 0
    level := 1
    lives := 3 }

lemma wallLe_refl (g : Grid) : WallLe g g := fun _ h => h

lemma wallLe_trans {a b c : Grid} (h1 : WallLe a b) (h2 : WallLe b c) : WallLe a c :=
  fun idx h => h2 idx (h1 idx h)

lemma gridSet_wallLe_of_ne (g : Grid) (i : Int) (v : Nat)
    (h : ¬ g i = some CELL_WALL) : WallLe g (gridSet g i v) := by
  intro j hj
  by_cases hji : j = i
  · subst hji
    exact absurd hj h
  · rw [gridSet_other _ _ _ _ hji]
    exact hj

lemma gridSet_wallLe_wall (g : Grid) (i : Int) : WallLe g (gridSet g i CELL_WALL) := by
  intro j hj
  by_cases hji : j = i
  · subst hji
    rw [gridSet_same]
  · rw [gridSet_other _ _ _ _ hji]
    exact hj

lemma borderWall_mono {g g2 : Grid} (hb : BorderWall g) (hle : WallLe g g2) :
    BorderWall g2 :=
  fun y hy x hx h => hle _ (hb y hy x hx h)

lemma borderWall_get {g : Grid} (hb : BorderWall g) {x y : Int}
    (h : borderWallAt x y = true) : g (x + y * 84) = some CELL_WALL := by
  have hxy : 0 ≤ x ∧ x ≤ 83 ∧ 0 ≤ y ∧ y ≤ 47 := by
    have h2 := h
    unfold borderWallAt at h2
    rw [decide_eq_true_eq] at h2
    omega
  have hcx : ((x.toNat : Int)) = x := Int.toNat_of_nonneg (by omega)
  have hcy : ((y.toNat : Int)) = y := Int.toNat_of_nonneg (by omega)
  have hres := hb y.toNat (by omega) x.toNat (by omega) (by rw [hcx, hcy]; exact h)
  rw [hcx, hcy] at hres
  exact hres

/-- A box-interior consequence: a non-WALL cell inside the clamp box cannot
sit on a border strip, so its coordinates are strictly interior. -/
lemma interior_of_center (g : Grid) (hb : BorderWall g) (cx cy : Int)
    (hpos : 12 ≤ cx ∧ cx ≤ 83 ∧ 0 ≤ cy ∧ cy ≤ 47)
    (hcen : ¬ g (cx + cy * GRID_WIDTH) = some CELL_WALL) :
    13 ≤ cx ∧ cx ≤ 82 ∧ 1 ≤ cy ∧ cy ≤ 46 := by
  by_contra hni
  apply hcen
  have hbw : borderWallAt cx cy = true := by
    unfold borderWallAt
    rw [decide_eq_true_eq]
    omega
  have hres := borderWall_get hb hbw
  simp only [GRID_WIDTH]
  exact hres

/-- A false 3-by-3 wall scan rules out WALL at every in-bounds cell within
Chebyshev distance 1 of the scan center. -/
lemma wallDetected_false_nbr (cx cy : Int) (g : Grid)
    (h : wallDetected cx cy g = false) (dx dy idx : Int)
    (hdx : -1 ≤ dx ∧ dx ≤ 1) (hdy : -1 ≤ dy ∧ dy ≤ 1)
    (hbnd : 0 ≤ cx + dx ∧ cx + dx < 84 ∧ 0 ≤ cy + dy ∧ cy + dy < 48)
    (heq : idx = (cx + dx) + (cy + dy) * 84) :
    ¬ g idx = some CELL_WALL := by
  intro hw
  have htrue : wallDetected cx cy g = true := by
    unfold wallDetected
    rw [List.any_eq_true]
    refine ⟨(dy + 1).toNat, List.mem_range.mpr (by omega), ?_⟩
    rw [List.any_eq_true]
    refine ⟨(dx + 1).toNat, List.mem_range.mpr (by omega), ?_⟩
    have ex : cx + (((dx + 1).toNat : Nat) : Int) - 1 = cx + dx := by omega
    have ey : cy + (((dy + 1).toNat : Nat) : Int) - 1 = cy + dy := by omega
    dsimp only
    simp only [GRID_WIDTH, GRID_HEIGHT]
    rw [ex, ey, if_pos hbnd, decide_eq_true_eq, ← heq]
    exact hw
  rw [htrue] at h
  exact absurd h (by simp)

lemma captureFills_wall_kept (g : Grid) (sp : Int × Int) (cx cy : Int)
    (eps : List (Int × Int)) (idx : Int) (h : g idx = some CELL_WALL) :
    (captureFills g sp cx cy eps).1 idx = some CELL_WALL := by
  unfold captureFills
  dsimp only
  set seeds := captureSeeds sp cx cy with hseeds
  have hmid : (floodFill seeds.1.1 seeds.1.2 5 g eps).1 idx = some CELL_WALL := by
    rcases floodFill_label seeds.1.1 seeds.1.2 5 g eps idx with h1 | ⟨_, hemp, _⟩
    · rw [h1]
      exact h
    · rw [h] at hemp
      exact absurd hemp (by simp [CELL_EMPTY, CELL_WALL])
  rcases floodFill_label seeds.2.1 seeds.2.2 6
      (floodFill seeds.1.1 seeds.1.2 5 g eps).1 eps idx with h2 | ⟨_, hemp2, _⟩
  · rw [h2]
    exact hmid
  · rw [hmid] at hemp2
    exact absurd hemp2 (by simp [CELL_EMPTY, CELL_WALL])

lemma commitGrid_wall_kept (g copy : Grid) (ft dnf : Nat) (idx : Int)
    (hft : ¬ ft = CELL_WALL) (hdnf : ¬ dnf = CELL_WALL)
    (h : g idx = some CELL_WALL) (hcopy : copy idx = some CELL_WALL) :
    commitGrid g copy ft dnf idx = some CELL_WALL := by
  unfold commitGrid
  by_cases hin : 0 ≤ idx ∧ idx < GRID_WIDTH * GRID_HEIGHT
  · rw [if_pos hin,
      if_neg (show ¬ g idx = some CELL_TRAIL by
        rw [h]; simp [CELL_WALL, CELL_TRAIL]),
      if_neg (show ¬ copy idx = some ft by
        rw [hcopy]; simp only [Option.some.injEq]; exact fun hh => hft hh.symm),
      if_neg (show ¬ copy idx = some dnf by
        rw [hcopy]; simp only [Option.some.injEq]; exact fun hh => hdnf hh.symm)]
    exact h
  · rw [if_neg hin]
    exact h

lemma captureStep_wallLe (s : SimState) : WallLe s.grid (captureStep s).grid := by
  intro idx h
  rw [captureStep_grid s]
  dsimp only
  by_cases hL : idx = s.playerPos.1 + s.playerPos.2 * GRID_WIDTH
  · rw [hL, gridSet_same]
  · rw [gridSet_other _ _ _ _ hL]
    have hcopy := captureFills_wall_kept s.grid s.playerSpeed s.playerPos.1 s.playerPos.2
      (s.enemies.map fun e => (e.x, e.y)) idx h
    by_cases hc : (captureFills s.grid s.playerSpeed s.playerPos.1 s.playerPos.2
        (s.enemies.map fun e => (e.x, e.y))).2.1 ≥
        (captureFills s.grid s.playerSpeed s.playerPos.1 s.playerPos.2
        (s.enemies.map fun e => (e.x, e.y))).2.2
    · rw [if_pos hc]
      exact commitGrid_wall_kept _ _ _ _ _ (by decide) (by decide) h hcopy
    · rw [if_neg hc]
      exact commitGrid_wall_kept _ _ _ _ _ (by decide) (by decide) h hcopy

lemma captureStep_playerSpeed (s : SimState) :
    (captureStep s).playerSpeed = s.playerSpeed := by
  unfold captureStep advanceLevel
  dsimp only
  split <;> split <;> rfl

lemma captureStep_state_shape (s : SimState) :
    (captureStep s).status = GameStatus.levelAnnounce ∨
      ((captureStep s).playerState = PlayerState.onWall ∧
        (captureStep s).status = s.status) := by
  unfold captureStep advanceLevel
  dsimp only
  split <;> split <;> first
    | exact Or.inl rfl
    | exact Or.inr ⟨rfl, rfl⟩

lemma transitions_onStage_core (s : SimState) (g2 : Grid)
    (_hst : s.playerState = PlayerState.onStage)
    (hb : BorderWall s.grid)
    (hsp : speedOk s.playerSpeed)
    (hpos : posIn s.playerPos)
    (hle : WallLe s.grid g2)
    (hcen2 : ¬ g2 (s.playerPos.1 + s.playerPos.2 * GRID_WIDTH) = some CELL_WALL) :
    WallLe s.grid (if wallDetected s.playerPos.1 s.playerPos.2 s.grid = true
        then captureStep {s with grid := g2} else {s with grid := g2}).grid ∧
    Inv (if wallDetected s.playerPos.1 s.playerPos.2 s.grid = true
        then captureStep {s with grid := g2} else {s with grid := g2}) := by
  by_cases hwd : wallDetected s.playerPos.1 s.playerPos.2 s.grid = true
  · rw [if_pos hwd]
    have hle2 : WallLe s.grid (captureStep {s with grid := g2}).grid :=
      wallLe_trans hle (captureStep_wallLe {s with grid := g2})
    refine ⟨hle2, ?_⟩
    unfold Inv
    refine ⟨borderWall_mono hb hle2, ?_, ?_⟩
    · rw [captureStep_playerSpeed]
      exact hsp
    · intro hpl hos
      rcases captureStep_state_shape {s with grid := g2} with hlv | ⟨how, _⟩
      · rw [hpl] at hlv
        exact absurd hlv (by decide)
      · rw [hos] at how
        exact absurd how (by decide)
  · rw [if_neg hwd]
    refine ⟨hle, ?_⟩
    unfold Inv
    refine ⟨borderWall_mono hb hle, hsp, ?_⟩
    intro _ _
    exact ⟨hpos, hcen2⟩

lemma transitions_onStage_ok (s : SimState)
    (hst : s.playerState = PlayerState.onStage)
    (_hstatus : s.status = GameStatus.playing)
    (hb : BorderWall s.grid) (hsp : speedOk s.playerSpeed)
    (hpos : posIn s.playerPos)
    (hcenter : ¬ s.grid (s.playerPos.1 + s.playerPos.2 * GRID_WIDTH) = some CELL_WALL)
    (hprev : ¬ s.grid ((s.playerPos.1 - s.playerSpeed.1) +
        (s.playerPos.2 - s.playerSpeed.2) * GRID_WIDTH) = some CELL_WALL) :
    WallLe s.grid (transitions s).grid ∧ Inv (transitions s) := by
  unfold transitions
  dsimp only
  rw [if_pos hst]
  by_cases hbnd : 0 ≤ s.playerPos.1 - s.playerSpeed.1 ∧
      s.playerPos.1 - s.playerSpeed.1 < GRID_WIDTH ∧
      0 ≤ s.playerPos.2 - s.playerSpeed.2 ∧ s.playerPos.2 - s.playerSpeed.2 < GRID_HEIGHT
  · rw [if_pos hbnd]
    refine transitions_onStage_core s _ hst hb hsp hpos ?_ ?_
    · refine wallLe_trans (gridSet_wallLe_of_ne _ _ _ hcenter) (gridSet_wallLe_of_ne _ _ _ ?_)
      by_cases hpe : (s.playerPos.1 - s.playerSpeed.1) + (s.playerPos.2 - s.playerSpeed.2) * GRID_WIDTH
          = s.playerPos.1 + s.playerPos.2 * GRID_WIDTH
      · rw [hpe, gridSet_same]
        simp [CELL_TRAIL, CELL_WALL]
      · rw [gridSet_other _ _ _ _ hpe]
        exact hprev
    · by_cases hpe : s.playerPos.1 + s.playerPos.2 * GRID_WIDTH =
          (s.playerPos.1 - s.playerSpeed.1) + (s.playerPos.2 - s.playerSpeed.2) * GRID_WIDTH
      · rw [hpe, gridSet_same]
        simp [CELL_TRAIL, CELL_WALL]
      · rw [gridSet_other _ _ _ _ hpe, gridSet_same]
        simp [CELL_TRAIL, CELL_WALL]
  · rw [if_neg hbnd]
    refine transitions_onStage_core s _ hst hb hsp hpos
      (gridSet_wallLe_of_ne _ _ _ hcenter) ?_
    rw [gridSet_same]
    simp [CELL_TRAIL, CELL_WALL]

lemma transitions_onWall_ok (s : SimState)
    (hst : s.playerState = PlayerState.onWall)
    (hb : BorderWall s.grid) (hsp : speedOk s.playerSpeed)
    (hpos : posIn s.playerPos) :
    WallLe s.grid (transitions s).grid ∧ Inv (transitions s) := by
  have hposN := hpos
  unfold posIn at hposN
  unfold transitions
  dsimp only
  rw [if_neg (show ¬ s.playerState = PlayerState.onStage by rw [hst]; simp)]
  by_cases hcond : ¬ wallDetected s.playerPos.1 s.playerPos.2 s.grid = true ∧
      (s.playerSpeed.1 ≠ 0 ∨ s.playerSpeed.2 ≠ 0)
  · rw [if_pos hcond]
    have hnwd : wallDetected s.playerPos.1 s.playerPos.2 s.grid = false := by
      have h2 := hcond.1
      rwa [Bool.not_eq_true] at h2
    have hcen : ¬ s.grid (s.playerPos.1 + s.playerPos.2 * GRID_WIDTH) = some CELL_WALL :=
      wallDetected_false_nbr _ _ _ hnwd 0 0 _ (by decide) (by decide)
        (by omega) (by simp only [GRID_WIDTH]; ring)
    have hb1 : -1 ≤ s.playerSpeed.1 ∧ s.playerSpeed.1 ≤ 1 ∧
        -1 ≤ s.playerSpeed.2 ∧ s.playerSpeed.2 ≤ 1 := by
      rcases hsp with h | h | h | h | h <;> rw [h] <;>
        exact ⟨by decide, by decide, by decide, by decide⟩
    by_cases hbnd : 0 ≤ s.playerPos.1 - s.playerSpeed.1 ∧
        s.playerPos.1 - s.playerSpeed.1 < GRID_WIDTH ∧
        0 ≤ s.playerPos.2 - s.playerSpeed.2 ∧ s.playerPos.2 - s.playerSpeed.2 < GRID_HEIGHT
    · rw [if_pos hbnd]
      have hbndN := hbnd
      simp only [GRID_WIDTH, GRID_HEIGHT] at hbndN
      have hprevW : ¬ s.grid ((s.playerPos.1 - s.playerSpeed.1) +
          (s.playerPos.2 - s.playerSpeed.2) * GRID_WIDTH) = some CELL_WALL :=
        wallDetected_false_nbr _ _ _ hnwd (-s.playerSpeed.1) (-s.playerSpeed.2) _
          (by omega) (by omega) (by omega) (by simp only [GRID_WIDTH]; ring)
      have hle : WallLe s.grid (gridSet s.grid ((s.playerPos.1 - s.playerSpeed.1) +
          (s.playerPos.2 - s.playerSpeed.2) * GRID_WIDTH) CELL_TRAIL) :=
        gridSet_wallLe_of_ne _ _ _ hprevW
      refine ⟨hle, ?_⟩
      unfold Inv
      refine ⟨borderWall_mono hb hle, hsp, ?_⟩
      intro _ _
      refine ⟨hpos, ?_⟩
      dsimp only
      by_cases hpe : s.playerPos.1 + s.playerPos.2 * GRID_WIDTH =
          (s.playerPos.1 - s.playerSpeed.1) + (s.playerPos.2 - s.playerSpeed.2) * GRID_WIDTH
      · rw [hpe, gridSet_same]
        simp [CELL_TRAIL, CELL_WALL]
      · rw [gridSet_other _ _ _ _ hpe]
        exact hcen
    · rw [if_neg hbnd]
      refine ⟨wallLe_refl _, ?_⟩
      unfold Inv
      refine ⟨hb, hsp, ?_⟩
      intro _ _
      exact ⟨hpos, hcen⟩
  · rw [if_neg hcond]
    refine ⟨wallLe_refl _, ?_⟩
    unfold Inv
    refine ⟨hb, hsp, ?_⟩
    intro _ hos
    rw [hst] at hos
    exact absurd hos (by decide)

lemma applyInput_speedOk (inp : Input) (st : PlayerState) (sp : Int × Int)
    (hsp : speedOk sp) : speedOk (applyInput inp st sp) := by
  unfold applyInput
  dsimp only
  split_ifs <;>
    first
      | exact hsp
      | exact Or.inl rfl
      | exact Or.inr (Or.inl rfl)
      | exact Or.inr (Or.inr (Or.inl rfl))
      | exact Or.inr (Or.inr (Or.inr (Or.inl rfl)))
      | exact Or.inr (Or.inr (Or.inr (Or.inr rfl)))

lemma clampPos_posIn (p : Int × Int) : posIn (clampPos p) := by
  unfold clampPos posIn PLAY_AREA_LEFT PLAY_AREA_RIGHT PLAY_AREA_BOTTOM
  dsimp only
  omega

lemma clampPos_id (p : Int × Int) (h : posIn p) : clampPos p = p := by
  obtain ⟨a, b⟩ := p
  unfold posIn at h
  dsimp only at h
  simp only [clampPos, PLAY_AREA_LEFT, PLAY_AREA_RIGHT, PLAY_AREA_BOTTOM, Prod.mk.injEq]
  omega

lemma playerUpdate_ok (orc : Rand) (s : SimState)
    (hstatus : s.status = GameStatus.playing)
    (hb : BorderWall s.grid) (hsp : speedOk s.playerSpeed)
    (hclause : s.playerState = PlayerState.onStage →
      posIn s.playerPos ∧
        ¬ s.grid (s.playerPos.1 + s.playerPos.2 * GRID_WIDTH) = some CELL_WALL)
    (hnd : (playerUpdate orc s).2 = false) :
    WallLe s.grid (playerUpdate orc s).1.grid ∧ Inv (playerUpdate orc s).1 := by
  unfold playerUpdate at hnd ⊢
  dsimp only at hnd ⊢
  by_cases hdeath : s.playerState = PlayerState.onStage ∧
      rawRead s.grid (s.playerPos.1 + s.playerSpeed.1)
        (s.playerPos.2 + s.playerSpeed.2) = some CELL_TRAIL
  · rw [if_pos hdeath] at hnd
    exact absurd hnd (by simp)
  · rw [if_neg hdeath]
    dsimp only
    by_cases hstate : s.playerState = PlayerState.onWall
    · rw [if_pos hstate]
      have main : ∀ sp2 : Int × Int, speedOk sp2 → WallLe s.grid (transitions { s with playerSpeed := sp2, playerPos := clampPos (s.playerPos.1 + sp2.1, s.playerPos.2 + sp2.2) }).grid ∧ Inv (transitions { s with playerSpeed := sp2, playerPos := clampPos (s.playerPos.1 + sp2.1, s.playerPos.2 + sp2.2) }) := by
        intro sp2 hsp2
        exact transitions_onWall_ok { s with playerSpeed := sp2, playerPos := clampPos (s.playerPos.1 + sp2.1, s.playerPos.2 + sp2.2) } hstate hb hsp2 (clampPos_posIn _)
      refine main _ ?_
      split_ifs <;> first | exact Or.inl rfl | exact hsp
    · have hstage : s.playerState = PlayerState.onStage := by
        cases h2 : s.playerState
        · exact absurd h2 hstate
        · rfl
      obtain ⟨hposP, hcen⟩ := hclause hstage
      have hposN := hposP
      unfold posIn at hposN
      have hint := interior_of_center s.grid hb s.playerPos.1 s.playerPos.2 hposN hcen
      rw [if_neg hstate]
      by_cases hnc : rawRead s.grid (s.playerPos.1 + s.playerSpeed.1)
          (s.playerPos.2 + s.playerSpeed.2) = some CELL_WALL
      · rw [if_pos hnc]
        dsimp only
        rw [clampPos_id _ (show posIn (s.playerPos.1 + 0, s.playerPos.2 + 0) by
          unfold posIn; dsimp only; omega)]
        refine transitions_onStage_ok { s with playerSpeed := (0, 0), playerPos := (s.playerPos.1 + 0, s.playerPos.2 + 0) } hstage hstatus hb (Or.inl rfl) ?_ ?_ ?_
        · show posIn (s.playerPos.1 + 0, s.playerPos.2 + 0)
          unfold posIn
          dsimp only
          omega
        · show ¬ s.grid ((s.playerPos.1 + 0) + (s.playerPos.2 + 0) * GRID_WIDTH) = some CELL_WALL
          rw [show (s.playerPos.1 + 0) + (s.playerPos.2 + 0) * GRID_WIDTH =
            s.playerPos.1 + s.playerPos.2 * GRID_WIDTH by ring]
          exact hcen
        · show ¬ s.grid (((s.playerPos.1 + 0) - 0) +
              ((s.playerPos.2 + 0) - 0) * GRID_WIDTH) = some CELL_WALL
          rw [show ((s.playerPos.1 + 0) - 0) + ((s.playerPos.2 + 0) - 0) * GRID_WIDTH =
            s.playerPos.1 + s.playerPos.2 * GRID_WIDTH by ring]
          exact hcen
      · rw [if_neg hnc]
        have hb1 : -1 ≤ s.playerSpeed.1 ∧ s.playerSpeed.1 ≤ 1 ∧
            -1 ≤ s.playerSpeed.2 ∧ s.playerSpeed.2 ≤ 1 := by
          rcases hsp with h | h | h | h | h <;> rw [h] <;>
            exact ⟨by decide, by decide, by decide, by decide⟩
        rw [clampPos_id _ (show posIn (s.playerPos.1 + s.playerSpeed.1,
            s.playerPos.2 + s.playerSpeed.2) by unfold posIn; dsimp only; omega)]
        refine transitions_onStage_ok { s with playerSpeed := s.playerSpeed, playerPos := (s.playerPos.1 + s.playerSpeed.1, s.playerPos.2 + s.playerSpeed.2) } hstage hstatus hb hsp ?_ ?_ ?_
        · show posIn (s.playerPos.1 + s.playerSpeed.1, s.playerPos.2 + s.playerSpeed.2)
          unfold posIn
          dsimp only
          omega
        · show ¬ s.grid ((s.playerPos.1 + s.playerSpeed.1) +
              (s.playerPos.2 + s.playerSpeed.2) * GRID_WIDTH) = some CELL_WALL
          unfold rawRead at hnc
          exact hnc
        · show ¬ s.grid (((s.playerPos.1 + s.playerSpeed.1) - s.playerSpeed.1) +
              ((s.playerPos.2 + s.playerSpeed.2) - s.playerSpeed.2) * GRID_WIDTH) = some CELL_WALL
          rw [show ((s.playerPos.1 + s.playerSpeed.1) - s.playerSpeed.1) +
              ((s.playerPos.2 + s.playerSpeed.2) - s.playerSpeed.2) * GRID_WIDTH =
              s.playerPos.1 + s.playerPos.2 * GRID_WIDTH by ring]
          exact hcen

lemma capturedRow_mono {g g2 : Grid} (h : WallLe g g2) (j : Nat) :
    capturedRow g j ≤ capturedRow g2 j := by
  unfold capturedRow
  apply List.countP_mono_left
  intro i _ hp
  rw [decide_eq_true_eq] at hp ⊢
  exact h _ hp

lemma capturedCount_mono {g g2 : Grid} (h : WallLe g g2) :
    capturedCount g ≤ capturedCount g2 := by
  unfold capturedCount
  apply List.sum_le_sum
  intro j _
  exact capturedRow_mono h j

lemma calculatePercentage_mono_le {g g2 : Grid} (h : capturedCount g ≤ capturedCount g2) :
    calculatePercentage g ≤ calculatePercentage g2 := by
  rw [calculatePercentage_eq_div, calculatePercentage_eq_div]
  have h2 : (100 : Int) * (capturedCount g : Int) ≤ 100 * (capturedCount g2 : Int) := by
    omega
  exact Int.ediv_le_ediv (by norm_num) h2

set_option maxRecDepth 10000 in
lemma borderWall_initial : BorderWall createInitialGrid := by decide

lemma inv_initial : ∀ r : RandSpawn, Inv (initialState r) := by
  intro r
  unfold Inv
  refine ⟨borderWall_initial, Or.inl rfl, ?_⟩
  intro _ hos
  exact absurd hos (by simp [initialState])

/-- C4: while the game is running and no death event fires, a tick never
reduces the WALL count inside the play area, so the derived percentage is
monotonically non-decreasing from each tick to the next; the invariant used
holds at the mounted initial state and is preserved by the tick. -/
theorem c4_wall_monotonicity (inp : Input) (orc : Rand) (s : SimState)
    (hInv : Inv s) (hnd : (gameLoopTickE inp orc s).2 = false) :
    (∀ r : RandSpawn, Inv (initialState r)) ∧
    Inv (gameLoopTick inp orc s) ∧
    capturedCount s.grid ≤ capturedCount (gameLoopTick inp orc s).grid ∧
    calculatePercentage s.grid ≤ calculatePercentage (gameLoopTick inp orc s).grid := by
  obtain ⟨hb, hsp, hclause⟩ := hInv
  refine ⟨inv_initial, ?_⟩
  have main : WallLe s.grid (gameLoopTick inp orc s).grid ∧ Inv (gameLoopTick inp orc s) := by
    unfold gameLoopTick
    unfold gameLoopTickE at hnd ⊢
    by_cases hq : s.status = GameStatus.playing
    · rw [if_neg (not_not_intro hq)] at hnd ⊢
      by_cases hpar : (s.tickCount + 1) % 2 = 0
      · rw [if_pos hpar] at hnd ⊢
        by_cases hdied : (enemiesPhase s.grid s.enemies).2 = true
        · rw [if_pos hdied] at hnd
          exact absurd hnd (by simp)
        · rw [if_neg hdied] at hnd ⊢
          refine playerUpdate_ok orc _ ?_ ?_ ?_ ?_ hnd
          · exact hq
          · exact hb
          · exact applyInput_speedOk inp _ _ hsp
          · exact hclause hq
      · rw [if_neg hpar] at hnd ⊢
        refine playerUpdate_ok orc _ ?_ ?_ ?_ ?_ hnd
        · exact hq
        · exact hb
        · exact applyInput_speedOk inp _ _ hsp
        · exact hclause hq
    · rw [if_pos hq] at hnd ⊢
      refine ⟨wallLe_refl _, ?_⟩
      unfold Inv
      exact ⟨hb, hsp, hclause⟩
  exact ⟨main.2, capturedCount_mono main.1, calculatePercentage_mono_le (capturedCount_mono main.1)⟩

/-- A mid-draw state far from any wall: the player extends the trail by one
cell and no capture or death fires. -/
def sC4 : SimState :=
  { grid := gridBox, playerPos := (20, 20), playerSpeed := (1, 0),
    playerState := PlayerState.onStage, enemies := [],
    tickCount := 0, status := GameStatus.playing, score := 0,
    percentage := 0, level := 1, lives := 3 }

set_option maxRecDepth 40000 in
set_option maxHeartbeats 8000000 in
/-- Witness for C4: the drawing state satisfies the invariant, its tick is
death-free, and the theorem yields the preserved invariant and the two
monotonicity facts at that state. -/
theorem c4_witness :
    Inv sC4 ∧ (gameLoopTickE noInput orc0 sC4).2 = false ∧
    ((∀ r : RandSpawn, Inv (initialState r)) ∧
      Inv (gameLoopTick noInput orc0 sC4) ∧
      capturedCount sC4.grid ≤ capturedCount (gameLoopTick noInput orc0 sC4).grid ∧
      calculatePercentage sC4.grid ≤ calculatePercentage (gameLoopTick noInput orc0 sC4).grid) := by
  have h1 : Inv sC4 := by decide
  have h2 : (gameLoopTickE noInput orc0 sC4).2 = false := by decide
  exact ⟨h1, h2, c4_wall_monotonicity noInput orc0 sC4 h1 h2⟩


/-! ### Claim C1: counterexample and witness -/

set_option maxRecDepth 40000 in
set_option maxHeartbeats 4000000 in
/-- C1 counterexample: in the box closure with one enemy inside the smaller
side B and none in side A, side B reports the strictly greater occupancy
(3 versus 0), yet the tick releases side B to EMPTY, fills the enemy-free
side A into WALL, and the enemy survives — the capture resolution does NOT
fill the side with greater-or-equal enemy occupancy, and the enclosed enemy
is not destroyed. -/
theorem c1_counterexample :
    (captureFills sC1w.grid sC1w.playerSpeed sC1w.playerPos.1 sC1w.playerPos.2
        (sC1w.enemies.map fun e => (e.x, e.y))).2.1 <
      (captureFills sC1w.grid sC1w.playerSpeed sC1w.playerPos.1 sC1w.playerPos.2
        (sC1w.enemies.map fun e => (e.x, e.y))).2.2 ∧
    resC1.grid (idxOf 14 5) = some CELL_EMPTY ∧
    resC1.grid (idxOf 14 2) = some CELL_WALL ∧
    resC1.enemies = [⟨14, 5, 1, 1⟩] := by
  refine ⟨by decide, by decide, by decide, by decide⟩

set_option maxRecDepth 40000 in
set_option maxHeartbeats 8000000 in
/-- Witness for the amended C1 at the box landing state: side B (count 3)
strictly exceeds side A (count 0), so the rule fills a side-A cell into WALL
and keeps the side-B enemy alive. -/
theorem c1_witness :
    GridValuesOk sC1w.grid ∧
    sC1w.grid (sC1w.playerPos.1 + sC1w.playerPos.2 * GRID_WIDTH) = some CELL_TRAIL ∧
    (captureFills sC1w.grid sC1w.playerSpeed sC1w.playerPos.1 sC1w.playerPos.2
        (sC1w.enemies.map fun e => (e.x, e.y))).2.1 <
      (captureFills sC1w.grid sC1w.playerSpeed sC1w.playerPos.1 sC1w.playerPos.2
        (sC1w.enemies.map fun e => (e.x, e.y))).2.2 ∧
    (captureStep sC1w).grid (idxOf 14 2) = some CELL_WALL ∧
    Enemy.mk 14 5 1 1 ∈ (captureStep sC1w).enemies := by
  have hv : GridValuesOk sC1w.grid := by decide
  have hland : sC1w.grid (sC1w.playerPos.1 + sC1w.playerPos.2 * GRID_WIDTH) = some CELL_TRAIL := by
    decide
  have h := c1_capture_side_rule sC1w hv hland
  dsimp only at h
  have h2 := h.2 (by decide)
  refine ⟨hv, hland, by decide, ?_, ?_⟩
  · exact h2.1 (idxOf 14 2) (by decide) (by decide) (by decide)
  · exact h2.2.2 ⟨14, 5, 1, 1⟩ (by decide) (by decide) (by decide) (by decide)

/-! ### Claim C2: counterexample and witness -/

set_option maxRecDepth 40000 in
set_option maxHeartbeats 8000000 in
/-- C2 counterexample: in the box closure with no enemies at all, the two
flood fills report equal occupancy (a tie), side A is the side above the
landing cell (first seed (15, 3)), yet the tick fills side B (below) into
WALL and releases side A to EMPTY — the captured side on a tie is side B,
not side A as claimed. -/
theorem c2_counterexample :
    captureSeeds sC2w.playerSpeed 15 4 = ((15, 3), (15, 5)) ∧
    (captureFills sC2w.grid sC2w.playerSpeed sC2w.playerPos.1 sC2w.playerPos.2
        (sC2w.enemies.map fun e => (e.x, e.y))).2.1 =
      (captureFills sC2w.grid sC2w.playerSpeed sC2w.playerPos.1 sC2w.playerPos.2
        (sC2w.enemies.map fun e => (e.x, e.y))).2.2 ∧
    resC2.grid (idxOf 14 2) = some CELL_EMPTY ∧
    resC2.grid (idxOf 14 5) = some CELL_WALL := by
  refine ⟨by decide, by decide, by decide, by decide⟩

set_option maxRecDepth 40000 in
set_option maxHeartbeats 8000000 in
/-- Witness for the amended C2 at the box landing state: the tie resolves to
side B (a B cell becomes WALL, an A cell becomes EMPTY), and the seeds are
placed above/below the landing cell for horizontal travel. -/
theorem c2_witness :
    GridValuesOk sC2w.grid ∧
    sC2w.grid (sC2w.playerPos.1 + sC2w.playerPos.2 * GRID_WIDTH) = some CELL_TRAIL ∧
    (captureFills sC2w.grid sC2w.playerSpeed sC2w.playerPos.1 sC2w.playerPos.2
        (sC2w.enemies.map fun e => (e.x, e.y))).2.1 =
      (captureFills sC2w.grid sC2w.playerSpeed sC2w.playerPos.1 sC2w.playerPos.2
        (sC2w.enemies.map fun e => (e.x, e.y))).2.2 ∧
    captureSeeds (1, 0) 15 4 = ((15, 3), (15, 5)) ∧
    (captureStep sC2w).grid (idxOf 14 5) = some CELL_WALL ∧
    (captureStep sC2w).grid (idxOf 14 2) = some CELL_EMPTY := by
  have hv : GridValuesOk sC2w.grid := by decide
  have hland : sC2w.grid (sC2w.playerPos.1 + sC2w.playerPos.2 * GRID_WIDTH) = some CELL_TRAIL := by
    decide
  have h := c2_tie_captures_side_b sC2w hv hland
  have htie : (captureFills sC2w.grid sC2w.playerSpeed sC2w.playerPos.1 sC2w.playerPos.2
      (sC2w.enemies.map fun e => (e.x, e.y))).2.1 =
      (captureFills sC2w.grid sC2w.playerSpeed sC2w.playerPos.1 sC2w.playerPos.2
        (sC2w.enemies.map fun e => (e.x, e.y))).2.2 := by decide
  refine ⟨hv, hland, htie, (h.1 (1, 0) 15 4).1 (by decide), ?_, ?_⟩
  · exact (h.2 htie).1 (idxOf 14 5) (by decide) (by decide) (by decide)
  · exact (h.2 htie).2 (idxOf 14 2) (by decide) (by decide) (by decide)

/-! ### Claim C3: counterexample and witness -/

set_option maxRecDepth 40000 in
set_option maxHeartbeats 8000000 in
/-- C3 counterexample: in the corridor closure both seed cells are WALL (a
degenerate fill), yet the grid is NOT left unchanged: the tick seals the
TRAIL cell (13, 4) into WALL. -/
theorem c3_counterexample :
    sC3w.grid (idxOf 15 3) = some CELL_WALL ∧
    sC3w.grid (idxOf 15 5) = some CELL_WALL ∧
    sC3.grid (idxOf 13 4) = some CELL_TRAIL ∧
    resC3.grid (idxOf 13 4) = some CELL_WALL := by
  refine ⟨by decide, by decide, by decide, by decide⟩

set_option maxRecDepth 40000 in
set_option maxHeartbeats 8000000 in
/-- Witness for the amended C3 at the corridor landing state: with both seed
cells non-EMPTY the capture commits no fill, and the TRAIL cell (13, 4) is
sealed to WALL. -/
theorem c3_witness :
    GridValuesOk sC3w.grid ∧
    ¬ sC3w.grid ((captureSeeds sC3w.playerSpeed sC3w.playerPos.1 sC3w.playerPos.2).1.1 +
        (captureSeeds sC3w.playerSpeed sC3w.playerPos.1 sC3w.playerPos.2).1.2 * GRID_WIDTH) =
      some CELL_EMPTY ∧
    ¬ sC3w.grid ((captureSeeds sC3w.playerSpeed sC3w.playerPos.1 sC3w.playerPos.2).2.1 +
        (captureSeeds sC3w.playerSpeed sC3w.playerPos.1 sC3w.playerPos.2).2.2 * GRID_WIDTH) =
      some CELL_EMPTY ∧
    (captureStep sC3w).grid (idxOf 13 4) = some CELL_WALL := by
  have hv : GridValuesOk sC3w.grid := by decide
  have hA : ¬ sC3w.grid ((captureSeeds sC3w.playerSpeed sC3w.playerPos.1 sC3w.playerPos.2).1.1 +
      (captureSeeds sC3w.playerSpeed sC3w.playerPos.1 sC3w.playerPos.2).1.2 * GRID_WIDTH) =
      some CELL_EMPTY := by decide
  have hB : ¬ sC3w.grid ((captureSeeds sC3w.playerSpeed sC3w.playerPos.1 sC3w.playerPos.2).2.1 +
      (captureSeeds sC3w.playerSpeed sC3w.playerPos.1 sC3w.playerPos.2).2.2 * GRID_WIDTH) =
      some CELL_EMPTY := by decide
  have h := c3_degenerate_closure sC3w hv hA hB (idxOf 13 4) (by decide) (by decide)
  refine ⟨hv, hA, hB, ?_⟩
  rw [h]
  decide

/-! ### Claim C9: player mode at the end of the capture -/

/-- C9 (amended): the capture sequence transitions the player mode back to
OnWall only when the committed percentage stays below the win threshold; on
the closure that reaches the threshold the capture returns early through the
level-complete branch, leaving the mode as it was (still OnVoid) and setting
the status to the level announcement. -/
theorem c9_mode_after_capture (s : SimState) :
    ((captureStep s).percentage < WIN_PERCENTAGE →
      (captureStep s).playerState = PlayerState.onWall) ∧
    ((captureStep s).percentage ≥ WIN_PERCENTAGE →
      (captureStep s).playerState = s.playerState ∧
      (captureStep s).status = GameStatus.levelAnnounce) := by
  unfold captureStep advanceLevel
  dsimp only
  split <;> split <;> rename_i hwin <;> dsimp only <;> constructor <;> intro h <;>
    dsimp only at h hwin ⊢ <;>
    first
      | exact ⟨rfl, rfl⟩
      | rfl
      | omega

set_option maxRecDepth 40000 in
set_option maxHeartbeats 8000000 in
/-- C9 counterexample: the closure of the win scenario commits a percentage
at or above the threshold, and the tick returns with the status announcing
the level while the player mode is still OnVoid (onStage) — the mode is NOT
transitioned back to OnWall on this closure. -/
theorem c9_counterexample :
    resC9.percentage ≥ WIN_PERCENTAGE ∧
    resC9.status = GameStatus.levelAnnounce ∧
    resC9.playerState = PlayerState.onStage := by
  refine ⟨by decide, by decide, by decide⟩

set_option maxRecDepth 40000 in
set_option maxHeartbeats 8000000 in
/-- Witness for the amended C9 at the box landing state: the commit stays
below the threshold and the mode comes back to OnWall. -/
theorem c9_witness :
    (captureStep sC2w).percentage < WIN_PERCENTAGE ∧
    (captureStep sC2w).playerState = PlayerState.onWall := by
  have hp : (captureStep sC2w).percentage < WIN_PERCENTAGE := by decide
  exact ⟨hp, (c9_mode_after_capture sC2w).1 hp⟩

/-! ### Claim C10: occupancy counts are per-cell pair counts -/

set_option maxRecDepth 40000 in
set_option maxHeartbeats 8000000 in
/-- C10: the enemy-occupancy count a single flood fill returns is the number
of (visited cell, enemy) pairs within Chebyshev distance 1, not the number of
distinct enemies: with exactly one enemy centered in side A its fill reports
9, while side B containing two distinct corner enemies reports only 4, so the
side selection (which compares these pair counts) resolves against the side
with strictly more distinct enemies — side B, with two of the three enemies,
is the one captured (destroying both), while side A with the single enemy is
released. -/
theorem c10_pair_count_semantics :
    (captureFills sC1w.grid (1, 0) 15 4 [(14, 2), (13, 5), (15, 5)]).2.1 = 9 ∧
    (captureFills sC1w.grid (1, 0) 15 4 [(14, 2), (13, 5), (15, 5)]).2.2 = 4 ∧
    (9 : Nat) > 1 ∧
    resC10.grid (idxOf 13 5) = some CELL_WALL ∧
    resC10.grid (idxOf 14 2) = some CELL_EMPTY ∧
    resC10.enemies = [⟨14, 2, 1, 1⟩] := by
  refine ⟨by decide, by decide, by decide, by decide, by decide, by decide⟩

/-! ### Claim C7: death events short-circuit the tick -/

lemma applyInput_onStage (inp : Input) (sp : Int × Int) :
    applyInput inp PlayerState.onStage sp = sp := by
  unfold applyInput
  have h : ∀ b : Bool, ¬ (b ∧ PlayerState.onStage = PlayerState.onWall) := by
    intro b hb
    exact absurd hb.2 (by simp)
  simp only [if_neg (h inp.left), if_neg (h inp.right), if_neg (h inp.up), if_neg (h inp.down)]

/-- C7: once a death event fires, the rest of the tick is short-circuited.
If an enemy stands on a TRAIL cell when the enemy-motion phase of an
enemy-motion tick reaches it, the tick returns the death handling of the
state as it was at that moment (counter advanced, input applied, the roster
updated only up to the dying enemy) — no player motion, trail laying or
capture logic runs.  Likewise, if the cell the OnVoid player is about to
enter is TRAIL, the tick returns the death handling of the state before any
move: the position is unchanged and no capture logic runs. -/
theorem c7_death_short_circuit (inp : Input) (orc : Rand) (s : SimState)
    (hst : s.status = GameStatus.playing) :
    ((s.tickCount + 1) % 2 = 0 →
      (enemiesPhase s.grid s.enemies).2 = true →
      gameLoopTickE inp orc s =
        (handlePlayerDeath orc
          { s with tickCount := s.tickCount + 1,
                   playerSpeed := applyInput inp s.playerState s.playerSpeed,
                   enemies := (enemiesPhase s.grid s.enemies).1 }, true)) ∧
    (s.playerState = PlayerState.onStage →
      rawRead s.grid (s.playerPos.1 + s.playerSpeed.1)
        (s.playerPos.2 + s.playerSpeed.2) = some CELL_TRAIL →
      ((s.tickCount + 1) % 2 ≠ 0 →
        gameLoopTickE inp orc s =
          (handlePlayerDeath orc { s with tickCount := s.tickCount + 1 }, true)) ∧
      ((s.tickCount + 1) % 2 = 0 →
        (enemiesPhase s.grid s.enemies).2 = false →
        gameLoopTickE inp orc s =
          (handlePlayerDeath orc
            { s with tickCount := s.tickCount + 1,
                     enemies := (enemiesPhase s.grid s.enemies).1 }, true))) := by
  have hnst : ¬ s.status ≠ GameStatus.playing := by rw [hst]; simp
  constructor
  · intro hpar hdied
    unfold gameLoopTickE
    rw [if_neg hnst]
    dsimp only
    rw [if_pos hpar, if_pos hdied]
  · intro hmode htrail
    have hspeed : applyInput inp s.playerState s.playerSpeed = s.playerSpeed := by
      rw [hmode]; exact applyInput_onStage inp s.playerSpeed
    constructor
    · intro hpar
      unfold gameLoopTickE
      rw [if_neg hnst]
      dsimp only
      rw [if_neg hpar]
      unfold playerUpdate
      dsimp only
      rw [hspeed, hmode]
      rw [if_neg (show ¬ (PlayerState.onStage = PlayerState.onWall) by simp)]
      rw [htrail]
      rw [if_neg (show ¬ (some CELL_TRAIL = some CELL_WALL) by
        simp [CELL_TRAIL, CELL_WALL])]
      rw [if_pos ⟨rfl, rfl⟩]
    · intro hpar hnodeath
      unfold gameLoopTickE
      rw [if_neg hnst]
      dsimp only
      rw [if_pos hpar, if_neg (by rw [hnodeath]; simp)]
      unfold playerUpdate
      dsimp only
      rw [hspeed, hmode]
      rw [if_neg (show ¬ (PlayerState.onStage = PlayerState.onWall) by simp)]
      rw [htrail]
      rw [if_neg (show ¬ (some CELL_TRAIL = some CELL_WALL) by
        simp [CELL_TRAIL, CELL_WALL])]
      rw [if_pos ⟨rfl, rfl⟩]

/-- Enemy-death scenario: an enemy stands on the trail cell (13, 4) and the
incremented tick counter is even, so the enemy phase signals death. -/
def sC7 : SimState :=
  { grid := gridBox, playerPos := (14, 4), playerSpeed := (0, 0),
    playerState := PlayerState.onWall, enemies := [⟨13, 4, 1, 1⟩],
    tickCount := 1, status := GameStatus.playing, score := 0,
    percentage := 0, level := 1, lives := 3 }

/-- Self-intersection scenario: the OnVoid player is about to move onto the
trail cell (13, 4) on an odd tick. -/
def sC7b : SimState :=
  { grid := gridBox, playerPos := (14, 4), playerSpeed := (-1, 0),
    playerState := PlayerState.onStage, enemies := [],
    tickCount := 0, status := GameStatus.playing, score := 0,
    percentage := 0, level := 1, lives := 3 }

set_option maxRecDepth 40000 in
set_option maxHeartbeats 8000000 in
/-- Witness for C7: both death conditions fire on their concrete scenarios
and the respective ticks return the death handling of the pre-motion state. -/
theorem c7_witness :
    sC7.status = GameStatus.playing ∧
    (sC7.tickCount + 1) % 2 = 0 ∧
    (enemiesPhase sC7.grid sC7.enemies).2 = true ∧
    gameLoopTickE noInput orc0 sC7 =
      (handlePlayerDeath orc0
        { sC7 with tickCount := sC7.tickCount + 1,
                   playerSpeed := applyInput noInput sC7.playerState sC7.playerSpeed,
                   enemies := (enemiesPhase sC7.grid sC7.enemies).1 }, true) ∧
    sC7b.playerState = PlayerState.onStage ∧
    rawRead sC7b.grid (sC7b.playerPos.1 + sC7b.playerSpeed.1)
      (sC7b.playerPos.2 + sC7b.playerSpeed.2) = some CELL_TRAIL ∧
    gameLoopTickE noInput orc0 sC7b =
      (handlePlayerDeath orc0 { sC7b with tickCount := sC7b.tickCount + 1 }, true) := by
  have h1 := (c7_death_short_circuit noInput orc0 sC7 (by decide)).1 (by decide) (by decide)
  have h2 := ((c7_death_short_circuit noInput orc0 sC7b (by decide)).2
    (by decide) (by decide)).1 (by decide)
  exact ⟨by decide, by decide, by decide, h1, by decide, by decide, h2⟩

/-! ### Claim C5: the captured percentage formula -/

/-- C5: for every grid, the percentage captured equals
floor(100 * WALL count inside the play area / total play-area cell count),
is the floor of the exact quotient (count / totalArea) * 100 computed by the
source, and is an integer in 0..100; it is a pure function of the grid,
recomputed from it on every call. -/
theorem c5_percentage_formula (g : Grid) :
    calculatePercentage g =
      Int.floor (((capturedCount g : ℚ) / (totalArea : ℚ)) * 100) ∧
    calculatePercentage g = (100 * (capturedCount g : Int)) / 3220 ∧
    0 ≤ calculatePercentage g ∧ calculatePercentage g ≤ 100 := by
  refine ⟨calculatePercentage_eq_floor g, calculatePercentage_eq_div g, ?_, ?_⟩
  · rw [calculatePercentage_eq_div g]
    apply Int.ediv_nonneg
    · positivity
    · norm_num
  · rw [calculatePercentage_eq_div g]
    have hc : (capturedCount g : Int) ≤ 3220 := by
      exact_mod_cast capturedCount_le g
    have h1 : (100 : Int) * (capturedCount g : Int) ≤ 322000 := by omega
    have h2 : (100 : Int) * (capturedCount g : Int) / 3220 ≤ 322000 / 3220 :=
      Int.ediv_le_ediv (by norm_num) h1
    omega

/-! ### Claim C6: out-of-bounds grid reads -/

/-- C6 (amended part): every out-of-bounds coordinate resolves to WALL when
read through the helper isOnWall — the only accessor with that guard, and one
no simulation code path calls; the reads the game loop performs are the
guarded scans (which skip out-of-bounds neighbors) and the raw flat-index
reads of the counterexample below. -/
theorem c6_isOnWall_oob (x y : Int) (g : Grid)
    (h : x < 0 ∨ x ≥ GRID_WIDTH ∨ y < 0 ∨ y ≥ GRID_HEIGHT) :
    isOnWall x y g = true := by
  unfold isOnWall
  rw [if_pos h]

set_option maxRecDepth 10000 in
/-- Witness: the out-of-bounds coordinate (84, 1) resolves to WALL through
isOnWall on the initial grid. -/
theorem c6_isOnWall_oob_witness :
    ((84 : Int) < 0 ∨ (84 : Int) ≥ GRID_WIDTH ∨ (1 : Int) < 0 ∨ (1 : Int) ≥ GRID_HEIGHT) ∧
    isOnWall 84 1 createInitialGrid = true :=
  ⟨by decide, c6_isOnWall_oob 84 1 createInitialGrid (by decide)⟩

set_option maxRecDepth 10000 in
/-- C6 counterexample: the raw flat-index read used by the bounce and
next-cell tests of the game loop does not resolve the out-of-bounds
coordinate (84, 1) to WALL: it wraps to the cell (0, 2) of the next row and
yields EMPTY on the initial grid. -/
theorem c6_rawRead_oob_counterexample :
    (84 : Int) ≥ GRID_WIDTH ∧
    rawRead createInitialGrid 84 1 = some CELL_EMPTY ∧
    ¬ rawRead createInitialGrid 84 1 = some CELL_WALL := by
  refine ⟨by decide, by decide, by decide⟩

/-! ### Claim C8: death handling -/

/-- C8: for every death event, if lives would go negative the status becomes
Dead (and nothing else changes); otherwise lives decrements, grid, player and
enemies are reset to the level-start layout (enemy spawn positions drawn from
the spawn band by the random oracle), the percentage resets to 0, score and
level are preserved, and the status remains Playing. -/
theorem c8_death_reset (orc : Rand) (s : SimState) :
    (s.lives - 1 < 0 → handlePlayerDeath orc s = { s with status := GameStatus.dead }) ∧
    (0 ≤ s.lives - 1 →
      (handlePlayerDeath orc s).status = GameStatus.playing ∧
      (handlePlayerDeath orc s).lives = s.lives - 1 ∧
      (handlePlayerDeath orc s).percentage = 0 ∧
      (handlePlayerDeath orc s).grid = createInitialGrid ∧
      (handlePlayerDeath orc s).playerPos = (48, PLAY_AREA_BOTTOM) ∧
      (handlePlayerDeath orc s).playerSpeed = (0, 0) ∧
      (handlePlayerDeath orc s).playerState = PlayerState.onWall ∧
      (handlePlayerDeath orc s).enemies = respawnAll orc 0 s.enemies ∧
      (handlePlayerDeath orc s).score = s.score ∧
      (handlePlayerDeath orc s).level = s.level) := by
  constructor
  · intro h
    unfold handlePlayerDeath
    rw [if_pos h]
  · intro h
    unfold handlePlayerDeath
    rw [if_neg (by omega)]
    refine ⟨rfl, rfl, rfl, rfl, rfl, rfl, rfl, rfl, rfl, rfl⟩

/-- Death scenario with no lives left. -/
def sC8a : SimState :=
  { grid := emptyGrid, playerPos := (20, 20), playerSpeed := (1, 0),
    playerState := PlayerState.onStage, enemies := [⟨40, 20, 1, 1⟩],
    tickCount := 7, status := GameStatus.playing, score := 500,
    percentage := 40, level := 2, lives := 0 }

/-- Death scenario with three lives left. -/
def sC8b : SimState := { sC8a with lives := 3 }

/-- Witness for C8: with zero lives a death turns the status to Dead, and
with three lives it soft-resets grid, player, enemies and percentage while
preserving score and level. -/
theorem c8_witness :
    sC8a.lives - 1 < 0 ∧
    handlePlayerDeath orc0 sC8a = { sC8a with status := GameStatus.dead } ∧
    (0 : Int) ≤ sC8b.lives - 1 ∧
    ((handlePlayerDeath orc0 sC8b).status = GameStatus.playing ∧
      (handlePlayerDeath orc0 sC8b).lives = sC8b.lives - 1 ∧
      (handlePlayerDeath orc0 sC8b).percentage = 0 ∧
      (handlePlayerDeath orc0 sC8b).grid = createInitialGrid ∧
      (handlePlayerDeath orc0 sC8b).playerPos = (48, PLAY_AREA_BOTTOM) ∧
      (handlePlayerDeath orc0 sC8b).playerSpeed = (0, 0) ∧
      (handlePlayerDeath orc0 sC8b).playerState = PlayerState.onWall ∧
      (handlePlayerDeath orc0 sC8b).enemies = respawnAll orc0 0 sC8b.enemies ∧
      (handlePlayerDeath orc0 sC8b).score = sC8b.score ∧
      (handlePlayerDeath orc0 sC8b).level = sC8b.level) := by
  have ha := (c8_death_reset orc0 sC8a).1 (by decide)
  have hb := (c8_death_reset orc0 sC8b).2 (by decide)
  exact ⟨by decide, ha, by decide, hb⟩

end NeonDivide
